import Mathlib

/-!
Shallow embedding of the order/cart/checkout workflow and the user / generic
CRUD layers of the api-example repository (FastAPI + SQLModel), together with
proofs of the specification claims.

Modelling conventions:
* Database tables are Lean lists kept in insertion order; `first()` on an
  unordered SQL query is the head of the filtered list.
* Money is modelled as exact rationals; Python's `round(x, 2)` is a
  round-to-2-decimal-places function `round2`.  No stated claim depends on the
  tie-breaking rule of the rounding.
* Python ints are `Int` (quantities, deltas) or `Nat` (ids); UUID keys are
  modelled as `Nat`.  Timestamps are `Nat` and `datetime.now()` is an explicit
  `now` argument.
* Each route runs inside one session; an uncaught `HTTPException` aborts the
  transaction, so an operation returns `Except HTTPError (DB × ...)` and the
  persisted state on error is the pre-call state (`runState`).
-/

namespace Shop

/-- An HTTP error as raised by `HTTPException(status_code=..., detail=...)`. -/
structure HTTPError where
  status_code : Nat
  detail : String
deriving DecidableEq, Repr

/-- `OrderStatus` enum from `src/db/models.py`. -/
inductive OrderStatus where
  | inCart
  | purchased
  | refunded
  | shipped
  | cancelled
  | completed
deriving DecidableEq, Repr

/-- `ConditionEnum` enum from `src/db/models.py`. -/
inductive ConditionEnum where
  | active
  | deactivated
  | markedForDeletion
  | testCondition
  | noLongerInStock
deriving DecidableEq, Repr

/-- `Product` row (`src/db/models.py`): fields relevant to the cart workflow. -/
structure Product where
  id : Nat
  name : String
  price : ℚ
  quantity : Int
  updated_at : Nat
deriving DecidableEq, Repr

/-- `Order` row (`src/db/models.py`). -/
structure Order where
  id : Nat
  user_id : Nat
  total_amount : ℚ
  checked_out : Bool
  created_at : Nat
  updated_at : Nat
deriving DecidableEq, Repr

/-- `Purchase` row (`src/db/models.py`). -/
structure Purchase where
  id : Nat
  product_id : Nat
  user_id : Nat
  quantity : Int
  order_id : Nat
  total_amount : ℚ
  status : OrderStatus
  created_at : Nat
  updated_at : Nat
deriving DecidableEq, Repr

/-- `PurchaseBase` request body (`src/db/models.py`). -/
structure PurchaseBase where
  product_id : Nat
  user_id : Nat
  quantity : Int
deriving DecidableEq, Repr

/-- The relational state touched by the buy routes. -/
structure DB where
  products : List Product
  orders : List Order
  purchases : List Purchase
  nextOrderId : Nat
  nextPurchaseId : Nat
deriving DecidableEq, Repr

/-- Python's `round(x, 2)`, on exact rationals. -/
def round2 (q : ℚ) : ℚ := ((round (q * 100) : ℤ) : ℚ) / 100

/-- `select(Product).where(Product.id == pid)` followed by `.first()`. -/
def DB.findProduct (db : DB) (pid : Nat) : Option Product :=
  db.products.find? (fun pr => pr.id == pid)

/-- `select(Order).where(Order.id == oid)` followed by `.first()`. -/
def DB.findOrder (db : DB) (oid : Nat) : Option Order :=
  db.orders.find? (fun o => o.id == oid)

/-- `select(Order).where(Order.user_id == uid, Order.checked_out == False)`. -/
def DB.openOrders (db : DB) (uid : Nat) : List Order :=
  db.orders.filter (fun o => o.user_id == uid && !o.checked_out)

/-- The `order.purchases` relationship: purchases whose `order_id` is `oid`. -/
def DB.orderLines (db : DB) (oid : Nat) : List Purchase :=
  db.purchases.filter (fun p => p.order_id == oid)

/-- `UPDATE "order" ... WHERE id = oid` (id is a unique primary key). -/
def DB.updateOrder (db : DB) (oid : Nat) (f : Order → Order) : DB :=
  { db with orders := db.orders.map (fun o => if o.id = oid then f o else o) }

/-- `UPDATE purchase ... WHERE id = i`. -/
def DB.updatePurchase (db : DB) (i : Nat) (f : Purchase → Purchase) : DB :=
  { db with purchases := db.purchases.map (fun p => if p.id = i then f p else p) }

/-- `UPDATE product ... WHERE id = i`. -/
def DB.updateProduct (db : DB) (i : Nat) (f : Product → Product) : DB :=
  { db with products := db.products.map (fun pr => if pr.id = i then f pr else pr) }

/-- `session.delete(purchase)`: remove the row with primary key `i`. -/
def DB.removePurchase (db : DB) (i : Nat) : DB :=
  { db with purchases := db.purchases.filter (fun p => p.id != i) }

/-- Primary-key / foreign-key invariants maintained by the store:
ids are unique, and auto-increment counters exceed all used ids. -/
def DB.WF (db : DB) : Prop :=
  (∀ o ∈ db.orders, o.id < db.nextOrderId) ∧
  (∀ p ∈ db.purchases, p.id < db.nextPurchaseId) ∧
  (∀ p ∈ db.purchases, p.order_id < db.nextOrderId) ∧
  (db.orders.map Order.id).Nodup ∧
  (db.purchases.map Purchase.id).Nodup ∧
  (db.products.map Product.id).Nodup

instance (db : DB) : Decidable db.WF := by
  unfold DB.WF; infer_instance

/-- Cart well-formedness for one order, established by `create_purchase`
(it merges repeated products into one line) and by the FK on `product_id`:
the order's lines carry pairwise distinct products, each present in the
product table. -/
def DB.cartOK (db : DB) (oid : Nat) : Prop :=
  ((db.orderLines oid).map Purchase.product_id).Nodup ∧
  ∀ p ∈ db.orderLines oid, ∃ pr ∈ db.products, pr.id = p.product_id

instance (db : DB) (oid : Nat) : Decidable (db.cartOK oid) := by
  unfold DB.cartOK; infer_instance

/-- The persisted state after running a buy route: on an uncaught exception the
session is rolled back, so the pre-call state survives. -/
def runState (db : DB) (r : Except HTTPError (DB × Nat)) : DB :=
  match r with
  | .ok (db', _) => db'
  | .error _ => db

namespace BuyCRUD

/-- `BuyCRUD.create_purchase` (`src/routes/order_and_purchase.py`).
Returns the new state and the id of the affected order. -/
def create_purchase (db : DB) (pb : PurchaseBase) (now : Nat) :
    Except HTTPError (DB × Nat) :=
  match db.findProduct pb.product_id with
  | none => .error ⟨404, "Product not found"⟩
  | some product =>
    let total := round2 (product.price * (pb.quantity : ℚ))
    let opens := db.openOrders pb.user_id
    if opens.length > 1 then
      .error ⟨409, "Multiple open orders found for user"⟩
    else
      match opens.head? with
      | none =>
        let oid := db.nextOrderId
        let newPurchase : Purchase :=
          ⟨db.nextPurchaseId, pb.product_id, pb.user_id, pb.quantity, oid, total,
            .inCart, now, now⟩
        let newOrder : Order := ⟨oid, pb.user_id, total, false, now, now⟩
        .ok ({ db with
                orders := db.orders ++ [newOrder],
                purchases := db.purchases ++ [newPurchase],
                nextOrderId := oid + 1,
                nextPurchaseId := db.nextPurchaseId + 1 }, oid)
      | some order =>
        match (db.orderLines order.id).find? (fun p => p.product_id == pb.product_id) with
        | some line =>
          let newQty := line.quantity + pb.quantity
          let newTotal := round2 (product.price * (newQty : ℚ))
          let db1 := db.updatePurchase line.id
            (fun p => { p with quantity := newQty, total_amount := newTotal })
          let db2 := db1.updateOrder order.id
            (fun o => { o with
                total_amount := o.total_amount - line.total_amount + newTotal,
                updated_at := now })
          .ok (db2, order.id)
        | none =>
          let newPurchase : Purchase :=
            ⟨db.nextPurchaseId, pb.product_id, pb.user_id, pb.quantity, order.id,
              total, .inCart, now, now⟩
          let db1 := { db with
            purchases := db.purchases ++ [newPurchase],
            nextPurchaseId := db.nextPurchaseId + 1 }
          let db2 := db1.updateOrder order.id
            (fun o => { o with total_amount := o.total_amount + total, updated_at := now })
          .ok (db2, order.id)

/-- `BuyCRUD.update_purchase_quantity` (`src/routes/order_and_purchase.py`).
In the removal branch the product row is never read (the Python binding
`product = purchase.product` is unused there), so the lookup sits in the
recompute branch only; a broken FK would surface as a Python `AttributeError`,
modelled as a 500. -/
def update_purchase_quantity (db : DB) (pb : PurchaseBase) (now : Nat) :
    Except HTTPError (DB × Nat) :=
  if pb.quantity = 0 then
    .error ⟨400, "Quantity change cannot be 0"⟩
  else
    let opens := db.openOrders pb.user_id
    if opens.length > 1 then
      .error ⟨409, "Multiple open orders found for user"⟩
    else
      match opens.head? with
      | none =>
        .error ⟨404, "Order not found. Use a POST rather than a PUT to create an order."⟩
      | some order =>
        match (db.orderLines order.id).find? (fun p => p.product_id == pb.product_id) with
        | none => .error ⟨404, "Product not found in cart for user"⟩
        | some line =>
          let newQty := line.quantity + pb.quantity
          if newQty ≤ 0 then
            let db1 := db.updateOrder order.id
              (fun o => { o with total_amount := o.total_amount - line.total_amount })
            let db2 := db1.removePurchase line.id
            .ok (db2, order.id)
          else
            match db.findProduct line.product_id with
            | none => .error ⟨500, "broken product foreign key"⟩
            | some product =>
              let newTotal := round2 (product.price * (newQty : ℚ))
              let db1 := db.updatePurchase line.id
                (fun p => { p with quantity := newQty, total_amount := newTotal,
                                   updated_at := now })
              let db2 := db1.updateOrder order.id
                (fun o => { o with
                    total_amount := o.total_amount - line.total_amount + newTotal,
                    updated_at := now })
              .ok (db2, order.id)

/-- The per-line body of the checkout loop: mark the line purchased, then check
and decrement inventory; a shortfall raises before anything is committed. -/
def setPurchased (now : Nat) (p : Purchase) : Purchase :=
  { p with status := .purchased, updated_at := now }

/-- The `for purchase in order.purchases` loop of `BuyCRUD.checkout`. -/
def checkoutLines (now : Nat) : DB → List Purchase → Except HTTPError DB
  | db, [] => .ok db
  | db, line :: rest =>
    let db1 := db.updatePurchase line.id (setPurchased now)
    match db1.findProduct line.product_id with
    | none => .error ⟨500, "broken product foreign key"⟩
    | some product =>
      if product.quantity < line.quantity then
        .error ⟨400, "Not enough " ++ product.name ++ " in inventory"⟩
      else
        checkoutLines now
          (db1.updateProduct product.id
            (fun pr => { pr with quantity := pr.quantity - line.quantity,
                                 updated_at := now }))
          rest

/-- `BuyCRUD.checkout` (`src/routes/order_and_purchase.py`): take the first
open order, flip `checked_out`, walk the lines; the single `session.commit()`
sits after the loop, so an inventory shortfall aborts everything. -/
def checkout (db : DB) (uid : Nat) (now : Nat) : Except HTTPError (DB × Nat) :=
  match (db.openOrders uid).head? with
  | none => .error ⟨404, "No open order found for user"⟩
  | some order =>
    let db1 := db.updateOrder order.id
      (fun o => { o with checked_out := true, updated_at := now })
    match checkoutLines now db1 (db1.orderLines order.id) with
    | .error e => .error e
    | .ok db2 => .ok (db2, order.id)

/-- The `delete_purchase` route (`src/routes/order_and_purchase.py`): it looks
up the quantity on the first purchase row for `(product_id, user_id)` across
ALL orders, then delegates to `update_purchase_quantity` with its negation. -/
def delete_purchase (db : DB) (product_id : Nat) (user_id : Nat) (now : Nat) :
    Except HTTPError (DB × Nat) :=
  match db.purchases.find? (fun p => p.product_id == product_id && p.user_id == user_id) with
  | none => .error ⟨404, "Product not found in cart for user"⟩
  | some purchase =>
    update_purchase_quantity db ⟨product_id, user_id, -1 * purchase.quantity⟩ now

end BuyCRUD

/-- `User` row (`src/db/models.py`); `birth_date` is opaque to the claims. -/
structure User where
  id : Nat
  last_name : String
  first_name : String
  birth_date : String
  email : String
  phone_number : Option String
  condition : ConditionEnum
  street1 : String
  street2 : Option String
  city : String
  state_province : String
  zip : String
  country : String
deriving DecidableEq, Repr

/-- The user table plus its auto-increment counter. -/
structure UserDB where
  users : List User
  nextUserId : Nat
deriving DecidableEq, Repr

/-- A Python dict of updatable user fields; `none` stands both for an absent
key and for a key whose value is `None` — `CRUD.update` treats them alike
(`if value is not None: setattr(...)`).  `id` and `email` are never patched by
the routes the claims cover. -/
structure UserPatch where
  last_name : Option String
  first_name : Option String
  birth_date : Option String
  phone_number : Option String
  condition : Option ConditionEnum
  street1 : Option String
  street2 : Option String
  city : Option String
  state_province : Option String
  zip : Option String
  country : Option String
deriving DecidableEq, Repr

/-- The all-`none` patch. -/
def UserPatch.empty : UserPatch :=
  ⟨none, none, none, none, none, none, none, none, none, none, none⟩

/-- The `for key, value in data.items(): if value is not None: setattr(...)`
loop of `CRUD.update` in `src/routes/user.py`, specialised to the user dict. -/
def applyUserPatch (d : UserPatch) (u : User) : User :=
  { u with
    last_name := d.last_name.getD u.last_name,
    first_name := d.first_name.getD u.first_name,
    birth_date := d.birth_date.getD u.birth_date,
    phone_number := match d.phone_number with | some v => some v | none => u.phone_number,
    condition := d.condition.getD u.condition,
    street1 := d.street1.getD u.street1,
    street2 := match d.street2 with | some v => some v | none => u.street2,
    city := d.city.getD u.city,
    state_province := d.state_province.getD u.state_province,
    zip := d.zip.getD u.zip,
    country := d.country.getD u.country }

/-- Persisted user-table state after a route: unchanged on error. -/
def runUserState (udb : UserDB) (r : Except HTTPError (UserDB × User)) : UserDB :=
  match r with
  | .ok (udb', _) => udb'
  | .error _ => udb

/-- The digits part of the E.164 pattern `[1-9]\d{1,14}`. -/
def e164Digits : List Char → Bool
  | [] => false
  | c :: rest =>
    ('1' ≤ c && c ≤ '9') && decide (1 ≤ rest.length) && decide (rest.length ≤ 14)
      && rest.all (fun d => d.isDigit)

/-- `CRUD._validate_phone_number`: `None` allowed, else `^\+?[1-9]\d{1,14}$`. -/
def valid_phone_number : Option String → Bool
  | none => true
  | some s =>
    match s.data with
    | '+' :: rest => e164Digits rest
    | l => e164Digits l

namespace UserCRUD

/-- `CRUD.update` of `src/routes/user.py`, for an integer id: find the row,
set every non-null field of the dict, commit. -/
def update (udb : UserDB) (uid : Nat) (d : UserPatch) :
    Except HTTPError (UserDB × User) :=
  match udb.users.find? (fun u => u.id == uid) with
  | none => .error ⟨404, "User not found"⟩
  | some u =>
    let u' := applyUserPatch d u
    .ok ({ udb with users := udb.users.map (fun v => if v.id = uid then u' else v) }, u')

/-- The `PUT /user/.../deactivate` route: a condition-only update. -/
def deactivate_user (udb : UserDB) (uid : Nat) : Except HTTPError (UserDB × User) :=
  update udb uid { UserPatch.empty with condition := some ConditionEnum.deactivated }

/-- The `POST /user` route (`create_user` in `src/routes/user.py`): reactivate
a deactivated user with the same email via `CRUD.update` on the dump of the
new data minus `id`/`email`/`condition` plus `condition = Active`; reject any
other existing user with a 422; otherwise validate the phone and insert with
condition forced to Active. -/
def create_user (udb : UserDB) (user_data : User) :
    Except HTTPError (UserDB × User) :=
  match udb.users.find? (fun u => u.email == user_data.email) with
  | some existing =>
    if existing.condition = ConditionEnum.deactivated then
      let d : UserPatch :=
        ⟨some user_data.last_name, some user_data.first_name, some user_data.birth_date,
          user_data.phone_number, some ConditionEnum.active, some user_data.street1,
          user_data.street2, some user_data.city, some user_data.state_province,
          some user_data.zip, some user_data.country⟩
      update udb existing.id d
    else
      .error ⟨422, "User with email " ++ user_data.email ++ " already exists and is active."⟩
  | none =>
    if valid_phone_number user_data.phone_number then
      let newUser : User :=
        { user_data with id := udb.nextUserId, condition := ConditionEnum.active }
      .ok ({ users := udb.users ++ [newUser], nextUserId := udb.nextUserId + 1 }, newUser)
    else
      .error ⟨422, "Invalid phone number format"⟩

end UserCRUD

/-- A row of an arbitrary entity table for the generic layer: an integer key
plus a field valuation. -/
structure GenRecord (F V : Type) where
  id : Nat
  fields : F → V

/-- One iteration of the update loop of `BaseCRUD.update`
(`src/routes/base_crud.py`): `if value is not None: setattr(result, key, value)`. -/
def applyPatchStep [DecidableEq F] (r : F → V) (kv : F × Option V) : F → V :=
  match kv.2 with
  | some v => fun f => if f = kv.1 then v else r f
  | none => r

/-- The whole `for key, value in data.items()` loop. -/
def applyPatch [DecidableEq F] (data : List (F × Option V)) (r : F → V) : F → V :=
  data.foldl applyPatchStep r

namespace BaseCRUD

/-- `BaseCRUD.update` (`src/routes/base_crud.py`): find the row by key,
apply the non-null entries of the partial map, commit; 404 if absent. -/
def update [DecidableEq F] (table : List (GenRecord F V)) (rid : Nat)
    (data : List (F × Option V)) :
    Except HTTPError (List (GenRecord F V) × (F → V)) :=
  match table.find? (fun r => r.id == rid) with
  | none => .error ⟨404, "Record not found"⟩
  | some r =>
    let fields' := applyPatch data r.fields
    .ok (table.map (fun s => if s.id = rid then ⟨s.id, applyPatch data s.fields⟩ else s),
      fields')

end BaseCRUD

/-- Persisted table state after a generic update: unchanged on error. -/
def runGenState [DecidableEq F] (table : List (GenRecord F V))
    (r : Except HTTPError (List (GenRecord F V) × (F → V))) : List (GenRecord F V) :=
  match r with
  | .ok (table', _) => table'
  | .error _ => table

/-- The line of the user's open cart holding the given product, if any. -/
def lineFor (db : DB) (uid pid : Nat) : Option Purchase :=
  (db.openOrders uid).head?.bind
    (fun o => (db.orderLines o.id).find? (fun p => p.product_id == pid))

section ListLemmas

variable {α : Type}

/-- `find?` commutes with a map that preserves the predicate. -/
theorem find_map_pres (l : List α) (g : α → α) (p : α → Bool)
    (hg : ∀ a, p (g a) = p a) :
    (l.map g).find? p = (l.find? p).map g := by
  induction l with
  | nil => rfl
  | cons a t ih =>
    by_cases h : p a = true
    · rw [List.map_cons, List.find?_cons_of_pos _ (by rw [hg a]; exact h),
        List.find?_cons_of_pos _ h, Option.map_some']
    · rw [List.map_cons, List.find?_cons_of_neg _ (by rw [hg a]; simpa using h),
        List.find?_cons_of_neg _ (by simpa using h), ih]

/-- `filter` commutes with a map that preserves the predicate. -/
theorem filter_map_pres (l : List α) (g : α → α) (p : α → Bool)
    (hg : ∀ a, p (g a) = p a) :
    (l.map g).filter p = (l.filter p).map g := by
  induction l with
  | nil => rfl
  | cons a t ih =>
    by_cases h : p a = true
    · rw [List.map_cons, List.filter_cons_of_pos (by rw [hg a]; exact h),
        List.filter_cons_of_pos h, List.map_cons, ih]
    · rw [List.map_cons, List.filter_cons_of_neg (by rw [hg a]; simpa using h),
        List.filter_cons_of_neg (by simpa using h), ih]

/-- In a table with pairwise-distinct ids, `find?` by an element's id finds
exactly that element. -/
theorem find_id_of_nodup (getId : α → Nat) (l : List α) (a : α)
    (hnd : (l.map getId).Nodup) (ha : a ∈ l) :
    l.find? (fun x => getId x == getId a) = some a := by
  induction l with
  | nil => cases ha
  | cons b t ih =>
    rcases List.mem_cons.mp ha with rfl | hat
    · exact List.find?_cons_of_pos _ (by simp)
    · rw [List.map_cons, List.nodup_cons] at hnd
      have hne : getId b ≠ getId a := by
        intro h
        exact hnd.1 (h ▸ List.mem_map_of_mem getId hat)
      rw [List.find?_cons_of_neg _ (by simpa using hne), ih hnd.2 hat]

/-- `find?` over an append scans the left part first. -/
theorem find_append (l₁ l₂ : List α) (p : α → Bool) :
    (l₁ ++ l₂).find? p = ((l₁.find? p).or (l₂.find? p)) := by
  induction l₁ with
  | nil => rfl
  | cons a t ih =>
    by_cases h : p a = true
    · rw [List.cons_append, List.find?_cons_of_pos _ h, List.find?_cons_of_pos _ h,
        Option.or]
    · rw [List.cons_append, List.find?_cons_of_neg _ (by simpa using h),
        List.find?_cons_of_neg _ (by simpa using h), ih]

end ListLemmas

section DBLemmas

@[simp] theorem findProduct_updatePurchase (db : DB) (i : Nat) (f : Purchase → Purchase)
    (pid : Nat) : (db.updatePurchase i f).findProduct pid = db.findProduct pid := rfl

@[simp] theorem findProduct_updateOrder (db : DB) (i : Nat) (f : Order → Order)
    (pid : Nat) : (db.updateOrder i f).findProduct pid = db.findProduct pid := rfl

@[simp] theorem orders_updatePurchase (db : DB) (i : Nat) (f : Purchase → Purchase) :
    (db.updatePurchase i f).orders = db.orders := rfl

@[simp] theorem orders_updateProduct (db : DB) (i : Nat) (f : Product → Product) :
    (db.updateProduct i f).orders = db.orders := rfl

@[simp] theorem purchases_updateOrder (db : DB) (i : Nat) (f : Order → Order) :
    (db.updateOrder i f).purchases = db.purchases := rfl

@[simp] theorem purchases_updateProduct (db : DB) (i : Nat) (f : Product → Product) :
    (db.updateProduct i f).purchases = db.purchases := rfl

@[simp] theorem orderLines_updateOrder (db : DB) (i : Nat) (f : Order → Order)
    (oid : Nat) : (db.updateOrder i f).orderLines oid = db.orderLines oid := rfl

@[simp] theorem orderLines_updateProduct (db : DB) (i : Nat) (f : Product → Product)
    (oid : Nat) : (db.updateProduct i f).orderLines oid = db.orderLines oid := rfl

@[simp] theorem openOrders_updatePurchase (db : DB) (i : Nat) (f : Purchase → Purchase)
    (uid : Nat) : (db.updatePurchase i f).openOrders uid = db.openOrders uid := rfl

@[simp] theorem openOrders_updateProduct (db : DB) (i : Nat) (f : Product → Product)
    (uid : Nat) : (db.updateProduct i f).openOrders uid = db.openOrders uid := rfl

/-- A product update that keeps ids rewrites `findProduct` pointwise. -/
theorem findProduct_updateProduct (db : DB) (i : Nat) (f : Product → Product)
    (hf : ∀ pr, (f pr).id = pr.id) (pid : Nat) :
    (db.updateProduct i f).findProduct pid =
      (db.findProduct pid).map (fun pr => if pr.id = i then f pr else pr) := by
  unfold DB.findProduct DB.updateProduct
  exact find_map_pres _ _ _ (fun a => by by_cases h : a.id = i <;> simp [h, hf])

/-- A found product has the id that was looked up. -/
theorem findProduct_id (db : DB) (pid : Nat) (pr : Product)
    (h : db.findProduct pid = some pr) : pr.id = pid := by
  have := List.find?_some h
  simpa using this

/-- Updating a product other than the one looked up leaves `findProduct` alone. -/
theorem findProduct_updateProduct_ne (db : DB) (i : Nat) (f : Product → Product)
    (hf : ∀ pr, (f pr).id = pr.id) (pid : Nat) (hne : pid ≠ i) :
    (db.updateProduct i f).findProduct pid = db.findProduct pid := by
  rw [findProduct_updateProduct db i f hf pid]
  cases h : db.findProduct pid with
  | none => rfl
  | some pr =>
    have := findProduct_id db pid pr h
    simp [this, hne]

/-- An order update that keeps id, owner and open-flag rewrites `openOrders`
pointwise. -/
theorem openOrders_updateOrder_pres (db : DB) (i : Nat) (f : Order → Order)
    (hf : ∀ o, (f o).user_id = o.user_id ∧ (f o).checked_out = o.checked_out)
    (uid : Nat) :
    (db.updateOrder i f).openOrders uid =
      (db.openOrders uid).map (fun o => if o.id = i then f o else o) := by
  unfold DB.openOrders DB.updateOrder
  exact filter_map_pres _ _ _
    (fun a => by by_cases h : a.id = i <;> simp [h, (hf a).1, (hf a).2])

/-- A purchase update that keeps id and order rewrites `orderLines` pointwise. -/
theorem orderLines_updatePurchase_pres (db : DB) (i : Nat) (f : Purchase → Purchase)
    (hf : ∀ p, (f p).order_id = p.order_id) (oid : Nat) :
    (db.updatePurchase i f).orderLines oid =
      (db.orderLines oid).map (fun p => if p.id = i then f p else p) := by
  unfold DB.orderLines DB.updatePurchase
  exact filter_map_pres _ _ _
    (fun a => by by_cases h : a.id = i <;> simp [h, hf])

/-- Specialisation of `openOrders_updateOrder_pres` to the total/timestamp
updates the cart workflow performs (first-order, so `rw` can unify it). -/
theorem openOrders_updateOrder_total (db : DB) (i : Nat) (tf : Order → ℚ)
    (n uid : Nat) :
    (db.updateOrder i
        (fun ord => { ord with total_amount := tf ord, updated_at := n })).openOrders
        uid =
      (db.openOrders uid).map (fun o => if o.id = i then
        { o with total_amount := tf o, updated_at := n } else o) :=
  openOrders_updateOrder_pres db i
    (fun ord => { ord with total_amount := tf ord, updated_at := n })
    (fun _ => ⟨rfl, rfl⟩) uid

/-- Specialisation of `orderLines_updatePurchase_pres` to the quantity/total
rewrite `create_purchase` performs on a merged line. -/
theorem orderLines_updatePurchase_const (db : DB) (i : Nat) (c1 : Int) (c2 : ℚ)
    (oid : Nat) :
    (db.updatePurchase i
        (fun p => { p with quantity := c1, total_amount := c2 })).orderLines oid =
      (db.orderLines oid).map (fun p => if p.id = i then
        { p with quantity := c1, total_amount := c2 } else p) :=
  orderLines_updatePurchase_pres db i
    (fun p => { p with quantity := c1, total_amount := c2 }) (fun _ => rfl) oid

end DBLemmas

section CheckoutLemmas

/-- If some line of the batch is short on inventory (and every line's product
row exists), the checkout loop aborts with a 400. -/
theorem checkoutLines_short (now : Nat) (lines : List Purchase) (db : DB)
    (hnodup : (lines.map Purchase.product_id).Nodup)
    (hex : ∀ l ∈ lines, ∃ pr, db.findProduct l.product_id = some pr)
    (hshort : ∃ l ∈ lines, ∃ pr,
        db.findProduct l.product_id = some pr ∧ pr.quantity < l.quantity) :
    ∃ e, BuyCRUD.checkoutLines now db lines = .error e ∧ e.status_code = 400 := by
  induction lines generalizing db with
  | nil =>
    obtain ⟨l, hl, _⟩ := hshort
    cases hl
  | cons l0 rest ih =>
    obtain ⟨pr0, hpr0⟩ := hex l0 (List.mem_cons_self _ _)
    rw [List.map_cons, List.nodup_cons] at hnodup
    by_cases hlt : pr0.quantity < l0.quantity
    · refine ⟨⟨400, "Not enough " ++ pr0.name ++ " in inventory"⟩, ?_, rfl⟩
      show BuyCRUD.checkoutLines now db (l0 :: rest) = _
      rw [BuyCRUD.checkoutLines]
      rw [show (db.updatePurchase l0.id (BuyCRUD.setPurchased now)).findProduct
            l0.product_id = some pr0 from hpr0]
      simp [hlt]
    · have hpr0id : pr0.id = l0.product_id := findProduct_id db _ _ hpr0
      set dec : Product → Product :=
        fun pr => { pr with quantity := pr.quantity - l0.quantity, updated_at := now }
        with hdec
      have hdecid : ∀ pr, (dec pr).id = pr.id := fun pr => rfl
      set db2 := (db.updatePurchase l0.id (BuyCRUD.setPurchased now)).updateProduct
        pr0.id dec with hdb2
      have hpres : ∀ pid, pid ≠ l0.product_id → db2.findProduct pid = db.findProduct pid := by
        intro pid hne
        rw [hdb2, findProduct_updateProduct_ne _ _ _ hdecid _ (hpr0id ▸ hne),
          findProduct_updatePurchase]
      have hne' : ∀ l ∈ rest, l.product_id ≠ l0.product_id := by
        intro l hl h
        exact hnodup.1 (h ▸ List.mem_map_of_mem Purchase.product_id hl)
      have hex2 : ∀ l ∈ rest, ∃ pr, db2.findProduct l.product_id = some pr := by
        intro l hl
        rw [hpres l.product_id (hne' l hl)]
        exact hex l (List.mem_cons_of_mem _ hl)
      have hshort2 : ∃ l ∈ rest, ∃ pr,
          db2.findProduct l.product_id = some pr ∧ pr.quantity < l.quantity := by
        obtain ⟨l, hl, pr, hpr, hq⟩ := hshort
        rcases List.mem_cons.mp hl with rfl | hlr
        · rw [hpr0] at hpr
          cases hpr
          exact absurd hq hlt
        · exact ⟨l, hlr, pr, by rw [hpres l.product_id (hne' l hlr)]; exact hpr, hq⟩
      obtain ⟨e, he, hcode⟩ := ih db2 hnodup.2 hex2 hshort2
      refine ⟨e, ?_, hcode⟩
      show BuyCRUD.checkoutLines now db (l0 :: rest) = _
      rw [BuyCRUD.checkoutLines]
      rw [show (db.updatePurchase l0.id (BuyCRUD.setPurchased now)).findProduct
            l0.product_id = some pr0 from hpr0]
      simpa [hlt] using he

/-- Successful run of the checkout loop: every line's product decremented by
that line's quantity, every batched purchase marked purchased, all other
products and the order table untouched. -/
theorem checkoutLines_ok (now : Nat) (lines : List Purchase) (db : DB)
    (hnodup : (lines.map Purchase.product_id).Nodup)
    (hex : ∀ l ∈ lines, ∃ pr, db.findProduct l.product_id = some pr ∧
        l.quantity ≤ pr.quantity) :
    ∃ db', BuyCRUD.checkoutLines now db lines = .ok db' ∧
      db'.orders = db.orders ∧
      db'.purchases = db.purchases.map
        (fun p => if p.id ∈ lines.map Purchase.id
          then BuyCRUD.setPurchased now p else p) ∧
      (∀ l ∈ lines, ∀ pr, db.findProduct l.product_id = some pr →
          db'.findProduct l.product_id =
            some { pr with quantity := pr.quantity - l.quantity, updated_at := now }) ∧
      (∀ pid, (∀ l ∈ lines, l.product_id ≠ pid) →
          db'.findProduct pid = db.findProduct pid) := by
  induction lines generalizing db with
  | nil =>
    refine ⟨db, rfl, rfl, ?_, ?_, ?_⟩
    · simp
    · intro l hl
      cases hl
    · intro pid _
      rfl
  | cons l0 rest ih =>
    obtain ⟨pr0, hpr0, hq0⟩ := hex l0 (List.mem_cons_self _ _)
    rw [List.map_cons, List.nodup_cons] at hnodup
    have hlt : ¬pr0.quantity < l0.quantity := not_lt.mpr hq0
    have hpr0id : pr0.id = l0.product_id := findProduct_id db _ _ hpr0
    set dec : Product → Product :=
      fun pr => { pr with quantity := pr.quantity - l0.quantity, updated_at := now }
      with hdec
    have hdecid : ∀ pr, (dec pr).id = pr.id := fun pr => rfl
    set db1 := db.updatePurchase l0.id (BuyCRUD.setPurchased now) with hdb1
    set db2 := db1.updateProduct pr0.id dec with hdb2
    have hpres : ∀ pid, pid ≠ l0.product_id →
        db2.findProduct pid = db.findProduct pid := by
      intro pid hne
      rw [hdb2, findProduct_updateProduct_ne _ _ _ hdecid _ (hpr0id ▸ hne), hdb1,
        findProduct_updatePurchase]
    have hne' : ∀ l ∈ rest, l.product_id ≠ l0.product_id := by
      intro l hl h
      exact hnodup.1 (h ▸ List.mem_map_of_mem Purchase.product_id hl)
    have hex2 : ∀ l ∈ rest, ∃ pr, db2.findProduct l.product_id = some pr ∧
        l.quantity ≤ pr.quantity := by
      intro l hl
      rw [hpres l.product_id (hne' l hl)]
      exact hex l (List.mem_cons_of_mem _ hl)
    obtain ⟨db', hrun, hord, hpur, hdec', hframe⟩ := ih db2 hnodup.2 hex2
    have hstep : BuyCRUD.checkoutLines now db (l0 :: rest) = .ok db' := by
      rw [BuyCRUD.checkoutLines]
      rw [show db1.findProduct l0.product_id = some pr0 from hpr0]
      simpa [hlt] using hrun
    refine ⟨db', hstep, ?_, ?_, ?_, ?_⟩
    · rw [hord, hdb2, hdb1]
      rfl
    · rw [hpur]
      have hp2 : db2.purchases = db.purchases.map
          (fun p => if p.id = l0.id then BuyCRUD.setPurchased now p else p) := rfl
      rw [hp2, List.map_map]
      refine List.map_congr_left (fun p _ => ?_)
      by_cases h : p.id = l0.id
      · by_cases h2 : l0.id ∈ rest.map Purchase.id <;>
          simp [Function.comp, h, BuyCRUD.setPurchased, h2]
      · by_cases h2 : p.id ∈ rest.map Purchase.id <;>
          simp [Function.comp, h, h2, Ne.symm h]
    · intro l hl pr hpr
      rcases List.mem_cons.mp hl with rfl | hlr
      · rw [hpr0] at hpr
        cases hpr
        rw [hframe l.product_id hne']
        rw [hdb2, findProduct_updateProduct _ _ _ hdecid,
          show db1.findProduct l.product_id = some pr0 from hpr0]
        simp [hdec, hpr0id]
      · rw [hdec' l hlr pr (by rw [hpres l.product_id (hne' l hlr)]; exact hpr)]
    · intro pid hpid
      rw [hframe pid (fun l hl => hpid l (List.mem_cons_of_mem _ hl)),
        hpres pid (fun h => hpid l0 (List.mem_cons_self _ _) h.symm)]

/-- Every error the checkout loop can raise is a 400 or the broken-FK 500. -/
theorem checkoutLines_error_code (now : Nat) (lines : List Purchase) (db : DB)
    (e : HTTPError) (h : BuyCRUD.checkoutLines now db lines = .error e) :
    e.status_code = 400 ∨ e.status_code = 500 := by
  induction lines generalizing db with
  | nil => cases h
  | cons l0 rest ih =>
    rw [BuyCRUD.checkoutLines] at h
    split at h
    · cases h
      exact Or.inr rfl
    · split at h
      · cases h
        exact Or.inl rfl
      · exact ih _ h

end CheckoutLemmas

/-- **C1.** If checkout of a user's open order fails because some line's
required quantity exceeds the product's on-hand quantity, the whole call
raises a 400 before its single commit, and the persisted state is exactly the
pre-call state: same orders (the order still open), same purchases (prior
statuses), same products (no quantity changed). -/
theorem checkout_all_or_nothing (db : DB) (uid now : Nat) (order : Order)
    (hfirst : (db.openOrders uid).head? = some order)
    (hnodup : ((db.orderLines order.id).map Purchase.product_id).Nodup)
    (hex : ∀ l ∈ db.orderLines order.id, ∃ pr, db.findProduct l.product_id = some pr)
    (hshort : ∃ l ∈ db.orderLines order.id, ∃ pr,
        db.findProduct l.product_id = some pr ∧ pr.quantity < l.quantity) :
    (∃ e, BuyCRUD.checkout db uid now = .error e ∧ e.status_code = 400) ∧
      runState db (BuyCRUD.checkout db uid now) = db ∧
      (runState db (BuyCRUD.checkout db uid now)).orders = db.orders ∧
      (runState db (BuyCRUD.checkout db uid now)).purchases = db.purchases ∧
      (runState db (BuyCRUD.checkout db uid now)).products = db.products := by
  obtain ⟨e, he, hcode⟩ := checkoutLines_short now (db.orderLines order.id)
    (db.updateOrder order.id (fun o => { o with checked_out := true, updated_at := now }))
    hnodup hex hshort
  have hrun : BuyCRUD.checkout db uid now = .error e := by
    simp only [BuyCRUD.checkout, hfirst, orderLines_updateOrder]
    rw [he]
  refine ⟨⟨e, hrun, hcode⟩, ?_, ?_, ?_, ?_⟩ <;> (rw [hrun]; rfl)

/-- **C2.** For a user with exactly one open order, all of whose lines are
covered by inventory, checkout succeeds: the order is closed, every line of
the order ends with status Purchased, each line's product is decremented by
exactly that line's quantity, and no other product row changes. -/
theorem checkout_success_effects (db : DB) (uid now : Nat) (order : Order)
    (hopen : db.openOrders uid = [order])
    (hnodup : ((db.orderLines order.id).map Purchase.product_id).Nodup)
    (hstock : ∀ l ∈ db.orderLines order.id, ∃ pr,
        db.findProduct l.product_id = some pr ∧ l.quantity ≤ pr.quantity) :
    ∃ db', BuyCRUD.checkout db uid now = .ok (db', order.id) ∧
      ({ order with checked_out := true, updated_at := now } : Order) ∈ db'.orders ∧
      (∀ p ∈ db'.purchases, p.order_id = order.id → p.status = OrderStatus.purchased) ∧
      (∀ l ∈ db.orderLines order.id, ∀ pr, db.findProduct l.product_id = some pr →
          db'.findProduct l.product_id =
            some { pr with quantity := pr.quantity - l.quantity, updated_at := now }) ∧
      (∀ pid, (∀ l ∈ db.orderLines order.id, l.product_id ≠ pid) →
          db'.findProduct pid = db.findProduct pid) := by
  obtain ⟨db', hrun, hord, hpur, hdecr, hframe⟩ :=
    checkoutLines_ok now (db.orderLines order.id)
      (db.updateOrder order.id
        (fun o => { o with checked_out := true, updated_at := now }))
      hnodup hstock
  have hmemOrd : order ∈ db.orders := by
    have : order ∈ db.openOrders uid := by
      rw [hopen]
      exact List.mem_singleton.mpr rfl
    exact List.mem_of_mem_filter this
  have hrun' : BuyCRUD.checkout db uid now = .ok (db', order.id) := by
    simp only [BuyCRUD.checkout, hopen, List.head?_cons, orderLines_updateOrder]
    rw [hrun]
  refine ⟨db', hrun', ?_, ?_, ?_, ?_⟩
  · rw [hord]
    show _ ∈ db.orders.map (fun o => if o.id = order.id then
      ({ o with checked_out := true, updated_at := now } : Order) else o)
    exact List.mem_map.mpr ⟨order, hmemOrd, by simp⟩
  · intro p hp hpo
    rw [hpur] at hp
    obtain ⟨p0, hp0, rfl⟩ := List.mem_map.mp hp
    by_cases hmem : p0.id ∈ (db.orderLines order.id).map Purchase.id
    · simp [hmem, BuyCRUD.setPurchased]
    · rw [if_neg hmem] at hpo ⊢
      exact absurd (List.mem_map_of_mem Purchase.id
        (List.mem_filter.mpr ⟨hp0, by simpa using hpo⟩)) hmem
  · intro l hl pr hpr
    exact hdecr l hl pr hpr
  · intro pid hpid
    exact hframe pid hpid

/-- Mapping a row update that falsifies the filter predicate on the rows it
touches drops exactly those rows from the filter. -/
theorem filter_map_update {α : Type} (l : List α) (getId : α → Nat) (i : Nat)
    (g : α → α) (q : α → Bool)
    (hgq : ∀ a, getId a = i → q (g a) = false) :
    (l.map (fun a => if getId a = i then g a else a)).filter q =
      l.filter (fun a => q a && (getId a != i)) := by
  induction l with
  | nil => rfl
  | cons a t ih =>
    by_cases h : getId a = i
    · rw [List.map_cons, if_pos h, List.filter_cons_of_neg (by simp [hgq a h]),
        List.filter_cons_of_neg (by simp [h]), ih]
    · by_cases hq : q a = true
      · rw [List.map_cons, if_neg h, List.filter_cons_of_pos (by simp [hq]),
          List.filter_cons_of_pos (by simp [hq, h]), ih]
      · rw [List.map_cons, if_neg h, List.filter_cons_of_neg (by simpa using hq),
          List.filter_cons_of_neg (by simp [hq]), ih]

/-- **C9.** Checkout, unlike `add_to_cart` and `update_quantity`, performs no
count check on open orders: it can never fail with a 409 Conflict, and when a
user has two or more open orders (with the first one checkoutable) it closes
only the first open order returned by the query and leaves every other open
order untouched and still open. -/
theorem checkout_multiple_open_orders (db : DB) (uid now : Nat) (o1 o2 : Order)
    (rest : List Order)
    (hopen : db.openOrders uid = o1 :: o2 :: rest)
    (hnodupO : (db.orders.map Order.id).Nodup)
    (hnodup : ((db.orderLines o1.id).map Purchase.product_id).Nodup)
    (hstock : ∀ l ∈ db.orderLines o1.id, ∃ pr,
        db.findProduct l.product_id = some pr ∧ l.quantity ≤ pr.quantity) :
    (∀ (db₂ : DB) (uid₂ now₂ : Nat) (e : HTTPError),
        BuyCRUD.checkout db₂ uid₂ now₂ = .error e → e.status_code ≠ 409) ∧
      ∃ db', BuyCRUD.checkout db uid now = .ok (db', o1.id) ∧
        ({ o1 with checked_out := true, updated_at := now } : Order) ∈ db'.orders ∧
        (∀ o ∈ db.orders, o.id ≠ o1.id → o ∈ db'.orders) ∧
        db'.openOrders uid = o2 :: rest := by
  constructor
  · intro db₂ uid₂ now₂ e h
    rw [BuyCRUD.checkout] at h
    split at h
    · cases h
      decide
    · dsimp only at h
      split at h
      · cases h
        rcases checkoutLines_error_code _ _ _ _ (by assumption) with h4 | h5
        · omega
        · omega
      · cases h
  · obtain ⟨db', hrun, hord, hpur, hdecr, hframe⟩ :=
      checkoutLines_ok now (db.orderLines o1.id)
        (db.updateOrder o1.id
          (fun o => { o with checked_out := true, updated_at := now }))
        hnodup hstock
    have hmemO1 : o1 ∈ db.orders := by
      have : o1 ∈ db.openOrders uid := by
        rw [hopen]
        exact List.mem_cons_self _ _
      exact List.mem_of_mem_filter this
    have hrun' : BuyCRUD.checkout db uid now = .ok (db', o1.id) := by
      simp only [BuyCRUD.checkout, hopen, List.head?_cons, orderLines_updateOrder]
      rw [hrun]
    have hordsNodup : ((o1 :: o2 :: rest).map Order.id).Nodup := by
      have hsub : List.Sublist (o1 :: o2 :: rest) db.orders := by
        rw [← hopen]
        exact List.filter_sublist _
      exact List.Nodup.sublist (List.Sublist.map Order.id hsub) hnodupO
    have hidne : ∀ o ∈ o2 :: rest, o.id ≠ o1.id := by
      intro o ho h
      rw [List.map_cons, List.nodup_cons] at hordsNodup
      exact hordsNodup.1 (h ▸ List.mem_map_of_mem Order.id ho)
    refine ⟨db', hrun', ?_, ?_, ?_⟩
    · rw [hord]
      show _ ∈ db.orders.map (fun o => if o.id = o1.id then
        ({ o with checked_out := true, updated_at := now } : Order) else o)
      exact List.mem_map.mpr ⟨o1, hmemO1, by simp⟩
    · intro o ho hne
      rw [hord]
      show _ ∈ db.orders.map (fun o => if o.id = o1.id then
        ({ o with checked_out := true, updated_at := now } : Order) else o)
      exact List.mem_map.mpr ⟨o, ho, by simp [hne]⟩
    · have horders : db'.orders = db.orders.map (fun o => if o.id = o1.id then
        ({ o with checked_out := true, updated_at := now } : Order) else o) := hord
      unfold DB.openOrders
      rw [horders, filter_map_update db.orders Order.id o1.id _ _ (fun a _ => by simp)]
      have hsplit : db.orders.filter
          (fun o => (o.user_id == uid && !o.checked_out) && (o.id != o1.id)) =
          (db.openOrders uid).filter (fun o => o.id != o1.id) := by
        unfold DB.openOrders
        rw [List.filter_filter]
        exact List.filter_congr (fun o _ => by rw [Bool.and_comm])
      rw [hsplit, hopen, List.filter_cons_of_neg (by simp),
        List.filter_eq_self.mpr (fun o ho => by simpa using hidne o ho)]

@[simp] theorem findOrder_removePurchase (db : DB) (i : Nat) (oid : Nat) :
    (db.removePurchase i).findOrder oid = db.findOrder oid := rfl

/-- Equality on route results is decidable (used by concrete evaluations). -/
def exceptEqDec {ε α : Type} [DecidableEq ε] [DecidableEq α] :
    (a b : Except ε α) → Decidable (a = b)
  | .error e, .error f =>
    if h : e = f then isTrue (by rw [h]) else
      isFalse (by intro hh; cases hh; exact h rfl)
  | .error _, .ok _ => isFalse (by intro hh; cases hh)
  | .ok _, .error _ => isFalse (by intro hh; cases hh)
  | .ok a, .ok b =>
    if h : a = b then isTrue (by rw [h]) else
      isFalse (by intro hh; cases hh; exact h rfl)

instance {ε α : Type} [DecidableEq ε] [DecidableEq α] : DecidableEq (Except ε α) :=
  exceptEqDec

/-- With unique order ids, looking up an updated order returns its image
under the (id-preserving) update. -/
theorem findOrder_updateOrder (db : DB) (order : Order) (f : Order → Order)
    (hnodup : (db.orders.map Order.id).Nodup) (hmem : order ∈ db.orders)
    (hf : ∀ o, (f o).id = o.id) :
    (db.updateOrder order.id f).findOrder order.id = some (f order) := by
  have hfind : db.orders.find? (fun o => o.id == order.id) = some order :=
    find_id_of_nodup Order.id db.orders order hnodup hmem
  show (db.orders.map (fun o => if o.id = order.id then f o else o)).find?
      (fun o => o.id == order.id) = some (f order)
  rw [find_map_pres _ _ _ (fun a => by by_cases h : a.id = order.id <;> simp [h, hf]),
    hfind]
  simp

/-- Removing a purchase commutes with restricting to an order's lines. -/
theorem orderLines_remove_after_update (db : DB) (i oid : Nat) (f : Order → Order)
    (rid : Nat) :
    ((db.updateOrder i f).removePurchase rid).orderLines oid =
      (db.orderLines oid).filter (fun p => p.id != rid) := by
  show (db.purchases.filter (fun p => p.id != rid)).filter (fun p => p.order_id == oid) =
    (db.purchases.filter (fun p => p.order_id == oid)).filter (fun p => p.id != rid)
  rw [List.filter_filter, List.filter_filter]
  exact List.filter_congr (fun p _ => by rw [Bool.and_comm])

/-- A cart state whose open order holds a line with quantity 0 — reachable,
since `add_to_cart` accepts a zero quantity. -/
def zeroLineDB : DB :=
  ⟨[⟨10, "apple", 10, 100, 0⟩],
   [⟨1, 1, 0, false, 0, 0⟩],
   [⟨1, 10, 1, 0, 1, 0, .inCart, 0, 0⟩], 2, 2⟩

/-- **C3 counterexample.** User 1 has exactly one open order containing a line
for product 10 with quantity 0, and delta = 0 satisfies
`line.quantity + delta ≤ 0`; the claim predicts the line is removed, but
`update_quantity` rejects the zero delta with a 400 first, and the line stays
in the order with its quantity intact. -/
theorem update_quantity_zero_delta_no_removal :
    zeroLineDB.openOrders 1 = [⟨1, 1, 0, false, 0, 0⟩] ∧
    (zeroLineDB.orderLines 1).map (fun p => (p.product_id, p.quantity)) = [(10, 0)] ∧
    ((0 : Int) + 0 ≤ 0) ∧
    BuyCRUD.update_purchase_quantity zeroLineDB ⟨10, 1, 0⟩ 5 =
      .error ⟨400, "Quantity change cannot be 0"⟩ ∧
    ((runState zeroLineDB
        (BuyCRUD.update_purchase_quantity zeroLineDB ⟨10, 1, 0⟩ 5)).orderLines 1).map
      (fun p => (p.product_id, p.quantity)) = [(10, 0)] := by
  decide

/-- **C3 (amended).** For a user with exactly one open order containing a line
for the given product, a NONZERO delta with `line.quantity + delta ≤ 0`
removes the purchase row entirely, and the order row keeps every field except
`total_amount`, which drops by exactly the line's prior total — no recompute,
no `updated_at` bump. -/
theorem update_quantity_nonpositive_removes (db : DB) (uid pid : Nat)
    (delta : Int) (now : Nat) (order : Order) (line : Purchase)
    (hdelta : delta ≠ 0)
    (hopen : db.openOrders uid = [order])
    (hline : (db.orderLines order.id).find? (fun p => p.product_id == pid) = some line)
    (hle : line.quantity + delta ≤ 0)
    (hnodupO : (db.orders.map Order.id).Nodup)
    (hnodupPid : ((db.orderLines order.id).map Purchase.product_id).Nodup) :
    ∃ db', BuyCRUD.update_purchase_quantity db ⟨pid, uid, delta⟩ now =
        .ok (db', order.id) ∧
      db'.purchases = db.purchases.filter (fun p => p.id != line.id) ∧
      (∀ p ∈ db'.orderLines order.id, p.product_id ≠ pid) ∧
      db'.findOrder order.id =
        some { order with total_amount := order.total_amount - line.total_amount } := by
  have hmemOrd : order ∈ db.orders := by
    have : order ∈ db.openOrders uid := by
      rw [hopen]
      exact List.mem_singleton.mpr rfl
    exact List.mem_of_mem_filter this
  refine ⟨(db.updateOrder order.id
      (fun o => { o with total_amount := o.total_amount - line.total_amount })).removePurchase
        line.id, ?_, rfl, ?_, ?_⟩
  · simp only [BuyCRUD.update_purchase_quantity, hopen, List.head?_cons, hline]
    rw [if_neg hdelta, if_neg (by simp), if_pos hle]
  · intro p hp
    intro hpid
    rw [orderLines_remove_after_update] at hp
    have hp2 := List.mem_filter.mp hp
    have hlinemem : line ∈ db.orderLines order.id := List.mem_of_find?_eq_some hline
    have hlinepid : line.product_id = pid := by
      have := List.find?_some hline
      simpa using this
    have : p = line := List.inj_on_of_nodup_map hnodupPid hp2.1 hlinemem
      (by rw [hpid, hlinepid])
    rw [this] at hp2
    simpa using hp2.2
  · rw [findOrder_removePurchase]
    exact findOrder_updateOrder db order
      (fun o => { o with total_amount := o.total_amount - line.total_amount })
      hnodupO hmemOrd (fun o => rfl)

section CreatePurchaseLemmas

/-- `create_purchase` with no open order: a fresh order and line are appended,
the order total being the line total. -/
theorem create_purchase_fresh (db : DB) (pb : PurchaseBase) (now : Nat)
    (product : Product)
    (hp : db.findProduct pb.product_id = some product)
    (hopen : db.openOrders pb.user_id = []) :
    BuyCRUD.create_purchase db pb now = .ok ({ db with
      orders := db.orders ++
        [⟨db.nextOrderId, pb.user_id,
          round2 (product.price * (pb.quantity : ℚ)), false, now, now⟩],
      purchases := db.purchases ++
        [⟨db.nextPurchaseId, pb.product_id, pb.user_id, pb.quantity, db.nextOrderId,
          round2 (product.price * (pb.quantity : ℚ)), .inCart, now, now⟩],
      nextOrderId := db.nextOrderId + 1,
      nextPurchaseId := db.nextPurchaseId + 1 }, db.nextOrderId) := by
  simp [BuyCRUD.create_purchase, hp, hopen]

/-- `create_purchase` with one open order that does not yet hold the product:
a new line is appended and the order total grows by the line total. -/
theorem create_purchase_append (db : DB) (pb : PurchaseBase) (now : Nat)
    (product : Product) (o : Order)
    (hp : db.findProduct pb.product_id = some product)
    (hopen : db.openOrders pb.user_id = [o])
    (hnoline : (db.orderLines o.id).find? (fun p => p.product_id == pb.product_id) =
      none) :
    BuyCRUD.create_purchase db pb now = .ok
      (({ db with
          purchases := db.purchases ++
            [⟨db.nextPurchaseId, pb.product_id, pb.user_id, pb.quantity, o.id,
              round2 (product.price * (pb.quantity : ℚ)), .inCart, now, now⟩],
          nextPurchaseId := db.nextPurchaseId + 1 } : DB).updateOrder o.id
        (fun ord => { ord with
          total_amount := ord.total_amount + round2 (product.price * (pb.quantity : ℚ)),
          updated_at := now }), o.id) := by
  simp [BuyCRUD.create_purchase, hp, hopen, hnoline]

/-- `create_purchase` with one open order already holding the product: the
first matching line's quantity grows by the request quantity, its total is
re-derived from the current price, and the order total is adjusted by the
difference. -/
theorem create_purchase_increment (db : DB) (pb : PurchaseBase) (now : Nat)
    (product : Product) (o : Order) (line : Purchase)
    (hp : db.findProduct pb.product_id = some product)
    (hopen : db.openOrders pb.user_id = [o])
    (hline : (db.orderLines o.id).find? (fun p => p.product_id == pb.product_id) =
      some line) :
    BuyCRUD.create_purchase db pb now = .ok
      ((db.updatePurchase line.id (fun p => { p with
          quantity := line.quantity + pb.quantity,
          total_amount :=
            round2 (product.price * ((line.quantity + pb.quantity : Int) : ℚ)) })).updateOrder
        o.id (fun ord => { ord with
          total_amount := ord.total_amount - line.total_amount +
            round2 (product.price * ((line.quantity + pb.quantity : Int) : ℚ)),
          updated_at := now }), o.id) := by
  simp [BuyCRUD.create_purchase, hp, hopen, hline]

/-- After a fresh add-to-cart, the user's open cart is exactly the new order
holding exactly the new line. -/
theorem lineFor_after_fresh (db : DB) (uid pid n : Nat) (q : Int) (product : Product)
    (hp : db.findProduct pid = some product)
    (hopen : db.openOrders uid = [])
    (hfk : ∀ p ∈ db.purchases, p.order_id < db.nextOrderId) :
    ∃ db1, BuyCRUD.create_purchase db ⟨pid, uid, q⟩ n = .ok (db1, db.nextOrderId) ∧
      db1.products = db.products ∧
      db1.openOrders uid =
        [⟨db.nextOrderId, uid, round2 (product.price * (q : ℚ)), false, n, n⟩] ∧
      (db1.orderLines db.nextOrderId).find? (fun p => p.product_id == pid) =
        some ⟨db.nextPurchaseId, pid, uid, q, db.nextOrderId,
          round2 (product.price * (q : ℚ)), .inCart, n, n⟩ ∧
      lineFor db1 uid pid =
        some ⟨db.nextPurchaseId, pid, uid, q, db.nextOrderId,
          round2 (product.price * (q : ℚ)), .inCart, n, n⟩ := by
  have h1 := create_purchase_fresh db ⟨pid, uid, q⟩ n product hp hopen
  have hopen1 : ({ db with
      orders := db.orders ++
        [⟨db.nextOrderId, uid, round2 (product.price * (q : ℚ)), false, n, n⟩],
      purchases := db.purchases ++
        [⟨db.nextPurchaseId, pid, uid, q, db.nextOrderId,
          round2 (product.price * (q : ℚ)), .inCart, n, n⟩],
      nextOrderId := db.nextOrderId + 1,
      nextPurchaseId := db.nextPurchaseId + 1 } : DB).openOrders uid =
      [⟨db.nextOrderId, uid, round2 (product.price * (q : ℚ)), false, n, n⟩] := by
    show (db.orders ++ _).filter (fun o => o.user_id == uid && !o.checked_out) = _
    rw [List.filter_append,
      show db.orders.filter (fun o => o.user_id == uid && !o.checked_out) = []
        from hopen]
    simp
  have hfind1 : (({ db with
      orders := db.orders ++
        [⟨db.nextOrderId, uid, round2 (product.price * (q : ℚ)), false, n, n⟩],
      purchases := db.purchases ++
        [⟨db.nextPurchaseId, pid, uid, q, db.nextOrderId,
          round2 (product.price * (q : ℚ)), .inCart, n, n⟩],
      nextOrderId := db.nextOrderId + 1,
      nextPurchaseId := db.nextPurchaseId + 1 } : DB).orderLines
        db.nextOrderId).find? (fun p => p.product_id == pid) =
      some ⟨db.nextPurchaseId, pid, uid, q, db.nextOrderId,
        round2 (product.price * (q : ℚ)), .inCart, n, n⟩ := by
    show ((db.purchases ++ _).filter (fun p => p.order_id == db.nextOrderId)).find? _ = _
    rw [List.filter_append,
      List.filter_eq_nil_iff.mpr (fun p hp' => by
        have := hfk p hp'
        simp only [beq_iff_eq]
        omega),
      List.nil_append]
    simp
  refine ⟨_, h1, rfl, hopen1, hfind1, ?_⟩
  unfold lineFor
  rw [hopen1]
  simp only [List.head?_cons, Option.some_bind]
  exact hfind1

/-- After adding a product absent from the one open cart, the cart is the same
order with its total grown by the line total, and `lineFor` is the new line. -/
theorem lineFor_after_append (db : DB) (uid pid n : Nat) (q : Int)
    (product : Product) (o : Order)
    (hp : db.findProduct pid = some product)
    (hopen : db.openOrders uid = [o])
    (hnoline : (db.orderLines o.id).find? (fun p => p.product_id == pid) = none) :
    ∃ db1, BuyCRUD.create_purchase db ⟨pid, uid, q⟩ n = .ok (db1, o.id) ∧
      db1.products = db.products ∧
      db1.openOrders uid =
        [⟨o.id, o.user_id, o.total_amount + round2 (product.price * (q : ℚ)),
          o.checked_out, o.created_at, n⟩] ∧
      (db1.orderLines o.id).find? (fun p => p.product_id == pid) =
        some ⟨db.nextPurchaseId, pid, uid, q, o.id,
          round2 (product.price * (q : ℚ)), .inCart, n, n⟩ ∧
      lineFor db1 uid pid =
        some ⟨db.nextPurchaseId, pid, uid, q, o.id,
          round2 (product.price * (q : ℚ)), .inCart, n, n⟩ := by
  have h1 := create_purchase_append db ⟨pid, uid, q⟩ n product o hp hopen hnoline
  have hopen1 : (({ db with
      purchases := db.purchases ++
        [⟨db.nextPurchaseId, pid, uid, q, o.id,
          round2 (product.price * (q : ℚ)), .inCart, n, n⟩],
      nextPurchaseId := db.nextPurchaseId + 1 } : DB).updateOrder o.id
        (fun ord => { ord with
          total_amount := ord.total_amount + round2 (product.price * (q : ℚ)),
          updated_at := n })).openOrders uid =
      [⟨o.id, o.user_id, o.total_amount + round2 (product.price * (q : ℚ)),
        o.checked_out, o.created_at, n⟩] := by
    rw [openOrders_updateOrder_total,
      show ({ db with
        purchases := db.purchases ++
          [⟨db.nextPurchaseId, pid, uid, q, o.id,
            round2 (product.price * (q : ℚ)), .inCart, n, n⟩],
        nextPurchaseId := db.nextPurchaseId + 1 } : DB).openOrders uid = [o]
        from hopen]
    simp
  have hlines1 : (({ db with
      purchases := db.purchases ++
        [⟨db.nextPurchaseId, pid, uid, q, o.id,
          round2 (product.price * (q : ℚ)), .inCart, n, n⟩],
      nextPurchaseId := db.nextPurchaseId + 1 } : DB).updateOrder o.id
        (fun ord => { ord with
          total_amount := ord.total_amount + round2 (product.price * (q : ℚ)),
          updated_at := n })).orderLines o.id =
      db.orderLines o.id ++ [⟨db.nextPurchaseId, pid, uid, q, o.id,
        round2 (product.price * (q : ℚ)), .inCart, n, n⟩] := by
    show (db.purchases ++ _).filter (fun p => p.order_id == o.id) = _
    rw [List.filter_append]
    simp [DB.orderLines]
  have hfind1 : ((({ db with
      purchases := db.purchases ++
        [⟨db.nextPurchaseId, pid, uid, q, o.id,
          round2 (product.price * (q : ℚ)), .inCart, n, n⟩],
      nextPurchaseId := db.nextPurchaseId + 1 } : DB).updateOrder o.id
        (fun ord => { ord with
          total_amount := ord.total_amount + round2 (product.price * (q : ℚ)),
          updated_at := n })).orderLines o.id).find?
        (fun p => p.product_id == pid) =
      some ⟨db.nextPurchaseId, pid, uid, q, o.id,
        round2 (product.price * (q : ℚ)), .inCart, n, n⟩ := by
    rw [hlines1, find_append, hnoline]
    simp [Option.or]
  refine ⟨_, h1, rfl, hopen1, hfind1, ?_⟩
  unfold lineFor
  rw [hopen1]
  simp only [List.head?_cons, Option.some_bind]
  exact hfind1

/-- After adding a product already present in the one open cart, `lineFor`
yields the merged line: summed quantity, total re-derived at current price. -/
theorem lineFor_after_increment (db : DB) (uid pid n : Nat) (q : Int)
    (product : Product) (o : Order) (line : Purchase)
    (hp : db.findProduct pid = some product)
    (hopen : db.openOrders uid = [o])
    (hline : (db.orderLines o.id).find? (fun p => p.product_id == pid) = some line) :
    ∃ db2, BuyCRUD.create_purchase db ⟨pid, uid, q⟩ n = .ok (db2, o.id) ∧
      db2.products = db.products ∧
      lineFor db2 uid pid =
        some ⟨line.id, line.product_id, line.user_id, line.quantity + q,
          line.order_id,
          round2 (product.price * ((line.quantity + q : Int) : ℚ)),
          line.status, line.created_at, line.updated_at⟩ := by
  have h1 := create_purchase_increment db ⟨pid, uid, q⟩ n product o line hp hopen hline
  have hopen2 : ((db.updatePurchase line.id (fun p => { p with
      quantity := line.quantity + q,
      total_amount :=
        round2 (product.price * ((line.quantity + q : Int) : ℚ)) })).updateOrder
        o.id (fun ord => { ord with
          total_amount := ord.total_amount - line.total_amount +
            round2 (product.price * ((line.quantity + q : Int) : ℚ)),
          updated_at := n })).openOrders uid =
      [⟨o.id, o.user_id, o.total_amount - line.total_amount +
          round2 (product.price * ((line.quantity + q : Int) : ℚ)),
        o.checked_out, o.created_at, n⟩] := by
    rw [openOrders_updateOrder_total,
      show (db.updatePurchase line.id (fun p => { p with
        quantity := line.quantity + q,
        total_amount :=
          round2 (product.price * ((line.quantity + q : Int) : ℚ)) })).openOrders uid =
        [o] from hopen]
    simp
  have hlines2 : ((db.updatePurchase line.id (fun p => { p with
      quantity := line.quantity + q,
      total_amount :=
        round2 (product.price * ((line.quantity + q : Int) : ℚ)) })).updateOrder
        o.id (fun ord => { ord with
          total_amount := ord.total_amount - line.total_amount +
            round2 (product.price * ((line.quantity + q : Int) : ℚ)),
          updated_at := n })).orderLines o.id =
      (db.orderLines o.id).map (fun p => if p.id = line.id then { p with
        quantity := line.quantity + q,
        total_amount :=
          round2 (product.price * ((line.quantity + q : Int) : ℚ)) } else p) := by
    rw [orderLines_updateOrder]
    exact orderLines_updatePurchase_const db line.id _ _ o.id
  refine ⟨_, h1, rfl, ?_⟩
  unfold lineFor
  rw [hopen2]
  simp only [List.head?_cons, Option.some_bind]
  show (((db.updatePurchase line.id _).updateOrder o.id _).orderLines o.id).find?
    (fun p => p.product_id == pid) = _
  rw [hlines2, find_map_pres _ _ _ (fun a => by
    by_cases h : a.id = line.id <;> simp [h]), hline]
  simp

end CreatePurchaseLemmas

/-- **C4.** For a product in the catalog (price unchanged in between —
`create_purchase` never writes the product table) and positive quantities a
and b, adding a then b to the cart yields the same line quantity (a+b) and
the same line total as a single add of a+b, and that total is (a+b) times the
current price rounded to 2 decimal places. -/
theorem add_to_cart_quantity_assoc (db : DB) (uid pid : Nat) (a b : Int)
    (n1 n2 n3 : Nat) (product : Product)
    (hfk : ∀ p ∈ db.purchases, p.order_id < db.nextOrderId)
    (hp : db.findProduct pid = some product)
    (ha : 0 < a) (hb : 0 < b)
    (hstart : db.openOrders uid = [] ∨
      ∃ o, db.openOrders uid = [o] ∧
        (db.orderLines o.id).find? (fun p => p.product_id == pid) = none) :
    ∃ db1 db2 db3 oid oid3,
      BuyCRUD.create_purchase db ⟨pid, uid, a⟩ n1 = .ok (db1, oid) ∧
      BuyCRUD.create_purchase db1 ⟨pid, uid, b⟩ n2 = .ok (db2, oid) ∧
      BuyCRUD.create_purchase db ⟨pid, uid, a + b⟩ n3 = .ok (db3, oid3) ∧
      ∃ p2 p3, lineFor db2 uid pid = some p2 ∧ lineFor db3 uid pid = some p3 ∧
        p2.quantity = a + b ∧ p3.quantity = a + b ∧
        p2.total_amount = round2 (product.price * ((a + b : Int) : ℚ)) ∧
        p3.total_amount = round2 (product.price * ((a + b : Int) : ℚ)) := by
  rcases hstart with hopen | ⟨o, hopen, hnoline⟩
  · obtain ⟨db1, hrun1, hprod1, hopen1, hfind1, _⟩ :=
      lineFor_after_fresh db uid pid n1 a product hp hopen hfk
    have hp1 : db1.findProduct pid = some product := by
      unfold DB.findProduct
      rw [hprod1]
      exact hp
    obtain ⟨db2, hrun2, _, hlf2⟩ :=
      lineFor_after_increment db1 uid pid n2 b product
        ⟨db.nextOrderId, uid, round2 (product.price * ((a : Int) : ℚ)), false, n1, n1⟩
        ⟨db.nextPurchaseId, pid, uid, a, db.nextOrderId,
          round2 (product.price * ((a : Int) : ℚ)), .inCart, n1, n1⟩
        hp1 hopen1 hfind1
    obtain ⟨db3, hrun3, _, _, _, hlf3⟩ :=
      lineFor_after_fresh db uid pid n3 (a + b) product hp hopen hfk
    exact ⟨db1, db2, db3, db.nextOrderId, db.nextOrderId, hrun1, hrun2, hrun3,
      _, _, hlf2, hlf3, rfl, rfl, rfl, rfl⟩
  · obtain ⟨db1, hrun1, hprod1, hopen1, hfind1, _⟩ :=
      lineFor_after_append db uid pid n1 a product o hp hopen hnoline
    have hp1 : db1.findProduct pid = some product := by
      unfold DB.findProduct
      rw [hprod1]
      exact hp
    obtain ⟨db2, hrun2, _, hlf2⟩ :=
      lineFor_after_increment db1 uid pid n2 b product
        ⟨o.id, o.user_id, o.total_amount + round2 (product.price * ((a : Int) : ℚ)),
          o.checked_out, o.created_at, n1⟩
        ⟨db.nextPurchaseId, pid, uid, a, o.id,
          round2 (product.price * ((a : Int) : ℚ)), .inCart, n1, n1⟩
        hp1 hopen1 hfind1
    obtain ⟨db3, hrun3, _, _, _, hlf3⟩ :=
      lineFor_after_append db uid pid n3 (a + b) product o hp hopen hnoline
    exact ⟨db1, db2, db3, o.id, o.id, hrun1, hrun2, hrun3,
      _, _, hlf2, hlf3, rfl, rfl, rfl, rfl⟩

/-- **C10.** `add_to_cart` performs no validation on quantity: with an
existing product, any quantity q ≤ 0 (including 0) succeeds, persisting a
line with that quantity and total `round2 (price × q)` (zero or negative),
the fresh order's total being exactly that amount; only `update_quantity`
rejects a zero delta, with a 400. -/
theorem add_to_cart_nonpositive_quantity (db : DB) (uid pid : Nat) (q : Int)
    (now : Nat) (product : Product)
    (hp : db.findProduct pid = some product)
    (hq : q ≤ 0)
    (hopen : db.openOrders uid = [])
    (hfk : ∀ p ∈ db.purchases, p.order_id < db.nextOrderId) :
    (∃ db1, BuyCRUD.create_purchase db ⟨pid, uid, q⟩ now = .ok (db1, db.nextOrderId) ∧
      lineFor db1 uid pid =
        some ⟨db.nextPurchaseId, pid, uid, q, db.nextOrderId,
          round2 (product.price * (q : ℚ)), .inCart, now, now⟩ ∧
      db1.openOrders uid =
        [⟨db.nextOrderId, uid, round2 (product.price * (q : ℚ)), false, now, now⟩]) ∧
    (∀ (db₂ : DB) (now₂ : Nat),
      BuyCRUD.update_purchase_quantity db₂ ⟨pid, uid, 0⟩ now₂ =
        .error ⟨400, "Quantity change cannot be 0"⟩) := by
  constructor
  · obtain ⟨db1, hrun, _, hopen1, _, hlf⟩ :=
      lineFor_after_fresh db uid pid now q product hp hopen hfk
    exact ⟨db1, hrun, hlf, hopen1⟩
  · intro db₂ now₂
    simp [BuyCRUD.update_purchase_quantity]

/-- A user created with a phone number, to be deactivated and re-created. -/
def aliceNew : User :=
  ⟨0, "Smith", "Alice", "1990-01-01", "alice@example.com", some "+12345",
    .active, "1 Main St", none, "Springfield", "IL", "62704", "USA"⟩

/-- The re-creation payload: same email, null phone, new street. -/
def aliceRecreate : User :=
  ⟨0, "Jones", "Alice", "1990-01-01", "alice@example.com", none,
    .active, "2 Oak Ave", none, "Shelbyville", "IL", "62565", "USA"⟩

/-- The create → deactivate → re-create pipeline, starting from an empty
user table. -/
def reactivationPipeline : UserDB :=
  let s0 : UserDB := ⟨[], 1⟩
  let s1 := runUserState s0 (UserCRUD.create_user s0 aliceNew)
  let s2 := runUserState s1 (UserCRUD.deactivate_user s1 1)
  runUserState s2 (UserCRUD.create_user s2 aliceRecreate)

/-- **C5 counterexample.** Create Alice with phone "+12345", deactivate her,
re-create with the same email and `phone_number = None`: the row is
reactivated in place (same id 1, condition Active, street overwritten), but
the phone is NOT overwritten with the new null value — `CRUD.update` skips
null fields — refuting "all fields other than id, email, and condition
overwritten by the new values". -/
theorem create_user_reactivation_keeps_null_fields :
    reactivationPipeline.users.map
      (fun u => (u.id, u.phone_number, u.condition, u.street1)) =
      [(1, some "+12345", ConditionEnum.active, "2 Oak Ave")] ∧
    aliceRecreate.phone_number = none := by
  decide

/-- **C5 (amended).** Re-creating with the email of a deactivated user
reactivates the same row in place: no insertion, same id and email, condition
Active, every non-null field of the new payload overwritten; fields passed as
null (`phone_number`, `street2`) keep their prior values. -/
theorem create_user_reactivation (udb : UserDB) (u_new existing : User)
    (hfind : udb.users.find? (fun u => u.email == u_new.email) = some existing)
    (hdeact : existing.condition = ConditionEnum.deactivated)
    (hnodup : (udb.users.map User.id).Nodup) :
    ∃ udb' u', UserCRUD.create_user udb u_new = .ok (udb', u') ∧
      udb'.users.length = udb.users.length ∧
      u'.id = existing.id ∧
      u'.email = existing.email ∧
      u'.condition = ConditionEnum.active ∧
      u'.last_name = u_new.last_name ∧
      u'.first_name = u_new.first_name ∧
      u'.birth_date = u_new.birth_date ∧
      u'.street1 = u_new.street1 ∧
      u'.city = u_new.city ∧
      u'.state_province = u_new.state_province ∧
      u'.zip = u_new.zip ∧
      u'.country = u_new.country ∧
      u'.phone_number = (match u_new.phone_number with
        | some v => some v
        | none => existing.phone_number) ∧
      u'.street2 = (match u_new.street2 with
        | some v => some v
        | none => existing.street2) ∧
      (∀ v ∈ udb.users, v.id ≠ existing.id → v ∈ udb'.users) := by
  have hmem : existing ∈ udb.users := List.mem_of_find?_eq_some hfind
  have hfindid : udb.users.find? (fun u => u.id == existing.id) = some existing :=
    find_id_of_nodup User.id udb.users existing hnodup hmem
  have hrun : UserCRUD.create_user udb u_new = .ok
      ({ udb with users := udb.users.map (fun v => if v.id = existing.id then
          applyUserPatch
            ⟨some u_new.last_name, some u_new.first_name, some u_new.birth_date,
              u_new.phone_number, some ConditionEnum.active, some u_new.street1,
              u_new.street2, some u_new.city, some u_new.state_province,
              some u_new.zip, some u_new.country⟩ existing else v) },
        applyUserPatch
          ⟨some u_new.last_name, some u_new.first_name, some u_new.birth_date,
            u_new.phone_number, some ConditionEnum.active, some u_new.street1,
            u_new.street2, some u_new.city, some u_new.state_province,
            some u_new.zip, some u_new.country⟩ existing) := by
    simp [UserCRUD.create_user, hfind, hdeact, UserCRUD.update, hfindid]
  refine ⟨_, _, hrun, by simp, rfl, rfl, rfl, rfl, rfl, rfl, rfl, rfl, rfl, rfl,
    rfl, rfl, rfl, ?_⟩
  intro v hv hne
  exact List.mem_map.mpr ⟨v, hv, by simp [hne]⟩

/-- A one-user table whose single user is Active. -/
def dupUDB : UserDB :=
  ⟨[⟨1, "B", "Bob", "1980-01-01", "bob@example.com", none, .active, "s", none,
    "c", "st", "z", "co"⟩], 2⟩

/-- A second payload with the same email. -/
def bobAgain : User :=
  ⟨0, "B2", "Bob", "1980-01-01", "bob@example.com", none, .active, "s2", none,
    "c2", "st2", "z2", "co2"⟩

/-- **C6 counterexample.** Creating a user whose email belongs to an existing
Active user fails with HTTP 422, not the 409 Conflict the claim states. -/
theorem create_user_duplicate_not_409 :
    UserCRUD.create_user dupUDB bobAgain =
      .error ⟨422,
        "User with email bob@example.com already exists and is active."⟩ ∧
    (422 : Nat) ≠ 409 := by
  decide

/-- **C6 (amended).** If a user with the same email exists in any condition
other than Deactivated, `create_user` fails with a 422 Unprocessable Entity
carrying the "already exists and is active" message, and no row is inserted
or modified. -/
theorem create_user_duplicate_unprocessable (udb : UserDB) (u_new existing : User)
    (hfind : udb.users.find? (fun u => u.email == u_new.email) = some existing)
    (hcond : existing.condition ≠ ConditionEnum.deactivated) :
    UserCRUD.create_user udb u_new =
      .error ⟨422,
        "User with email " ++ u_new.email ++ " already exists and is active."⟩ ∧
    runUserState udb (UserCRUD.create_user udb u_new) = udb := by
  have h : UserCRUD.create_user udb u_new =
      .error ⟨422,
        "User with email " ++ u_new.email ++ " already exists and is active."⟩ := by
    simp [UserCRUD.create_user, hfind, hcond]
  exact ⟨h, by rw [h]; rfl⟩

/-- A state with a checked-out order 1 (its quantity-1 purchase row kept, as
checkout keeps rows) and an open order 2 holding the same product, qty 5. -/
def staleRowDB : DB :=
  ⟨[⟨10, "apple", 10, 100, 0⟩],
   [⟨1, 1, 10, true, 0, 0⟩, ⟨2, 1, 50, false, 0, 0⟩],
   [⟨1, 10, 1, 1, 1, 10, .purchased, 0, 0⟩, ⟨2, 10, 1, 5, 2, 50, .inCart, 0, 0⟩],
   3, 3⟩

/-- **C7.** `delete_purchase` selects the FIRST purchase row for (product,
user) across ALL orders — here the quantity-1 row of the already-checked-out
order 1 — and passes delta −1 instead of −(open-line quantity) = −5: the open
cart's line survives with quantity 4, whereas `update_quantity` with the true
−5 delta removes it. -/
theorem delete_purchase_uses_stale_row :
    ((runState staleRowDB
        (BuyCRUD.delete_purchase staleRowDB 10 1 99)).orderLines 2).map
      (fun p => (p.product_id, p.quantity)) = [(10, 4)] ∧
    (runState staleRowDB
        (BuyCRUD.update_purchase_quantity staleRowDB ⟨10, 1, -5⟩ 99)).orderLines 2 =
      [] := by
  decide

section ApplyPatchLemmas

variable {F V : Type} [DecidableEq F]

/-- A field never mentioned in the dict is left alone by the update loop. -/
theorem applyPatch_not_mem (data : List (F × Option V)) (r : F → V) (f : F)
    (hf : ∀ ov, (f, ov) ∉ data) : applyPatch data r f = r f := by
  induction data generalizing r with
  | nil => rfl
  | cons kv rest ih =>
    have hne : f ≠ kv.1 := by
      intro h
      exact hf kv.2 (by rw [h]; exact List.mem_cons_self _ _)
    have hstep : applyPatchStep r kv f = r f := by
      unfold applyPatchStep
      cases kv.2 with
      | none => rfl
      | some v => simp [hne]
    calc applyPatch (kv :: rest) r f
        = applyPatch rest (applyPatchStep r kv) f := rfl
      _ = applyPatchStep r kv f :=
          ih _ (fun ov hov => hf ov (List.mem_cons_of_mem _ hov))
      _ = r f := hstep

/-- A field mapped to a non-null value in the dict is set to that value. -/
theorem applyPatch_mem_some (data : List (F × Option V)) (r : F → V) (f : F)
    (v : V) (hkeys : (data.map Prod.fst).Nodup) (hmem : (f, some v) ∈ data) :
    applyPatch data r f = v := by
  induction data generalizing r with
  | nil => cases hmem
  | cons kv rest ih =>
    rw [List.map_cons, List.nodup_cons] at hkeys
    rcases List.mem_cons.mp hmem with heq | hmem'
    · cases heq.symm
      calc applyPatch ((f, some v) :: rest) r f
          = applyPatch rest (applyPatchStep r (f, some v)) f := rfl
        _ = applyPatchStep r (f, some v) f :=
            applyPatch_not_mem rest _ f (fun ov hov =>
              hkeys.1 (List.mem_map.mpr ⟨(f, ov), hov, rfl⟩))
        _ = v := by
            unfold applyPatchStep
            simp
    · calc applyPatch (kv :: rest) r f
          = applyPatch rest (applyPatchStep r kv) f := rfl
        _ = v := ih _ hkeys.2 hmem'

/-- A field present in the dict with a null value is left alone. -/
theorem applyPatch_mem_none (data : List (F × Option V)) (r : F → V) (f : F)
    (hkeys : (data.map Prod.fst).Nodup) (hmem : (f, (none : Option V)) ∈ data) :
    applyPatch data r f = r f := by
  induction data generalizing r with
  | nil => cases hmem
  | cons kv rest ih =>
    rw [List.map_cons, List.nodup_cons] at hkeys
    rcases List.mem_cons.mp hmem with heq | hmem'
    · cases heq.symm
      calc applyPatch ((f, (none : Option V)) :: rest) r f
          = applyPatch rest r f := rfl
        _ = r f :=
            applyPatch_not_mem rest r f (fun ov hov =>
              hkeys.1 (List.mem_map.mpr ⟨(f, ov), hov, rfl⟩))
    · have hne : f ≠ kv.1 := by
        intro h
        exact hkeys.1 (h ▸ List.mem_map_of_mem Prod.fst hmem')
      have hstep : applyPatchStep r kv f = r f := by
        unfold applyPatchStep
        cases kv.2 with
        | none => rfl
        | some v => simp [hne]
      calc applyPatch (kv :: rest) r f
          = applyPatch rest (applyPatchStep r kv) f := rfl
        _ = applyPatchStep r kv f := ih _ hkeys.2 hmem'
        _ = r f := hstep

end ApplyPatchLemmas

/-- **C8.** The generic `update` sets exactly the fields whose values in the
partial map are non-null, leaves every other field of the record and every
other record untouched, and fails with a 404 — modifying nothing — when no
record carries the key. -/
theorem base_update_partial_fields {F V : Type} [DecidableEq F]
    (table : List (GenRecord F V)) (rid : Nat) (data : List (F × Option V))
    (hkeys : (data.map Prod.fst).Nodup)
    (hids : (table.map GenRecord.id).Nodup) :
    (table.find? (fun r => r.id == rid) = none →
      BaseCRUD.update table rid data = .error ⟨404, "Record not found"⟩ ∧
      runGenState table (BaseCRUD.update table rid data) = table) ∧
    (∀ r, table.find? (fun r => r.id == rid) = some r →
      ∃ table' fields', BaseCRUD.update table rid data = .ok (table', fields') ∧
        (∀ f v, (f, some v) ∈ data → fields' f = v) ∧
        (∀ f, (∀ v, (f, some v) ∉ data) → fields' f = r.fields f) ∧
        table'.length = table.length ∧
        (∀ s ∈ table, s.id ≠ rid → s ∈ table') ∧
        (⟨r.id, fields'⟩ : GenRecord F V) ∈ table') := by
  constructor
  · intro hnone
    have h : BaseCRUD.update table rid data = .error ⟨404, "Record not found"⟩ := by
      simp [BaseCRUD.update, hnone]
    exact ⟨h, by rw [h]; rfl⟩
  · intro r hr
    have hrid : r.id = rid := by
      have := List.find?_some hr
      simpa using this
    have h : BaseCRUD.update table rid data = .ok
        (table.map (fun s => if s.id = rid then
          ⟨s.id, applyPatch data s.fields⟩ else s),
         applyPatch data r.fields) := by
      simp [BaseCRUD.update, hr]
    refine ⟨_, _, h, ?_, ?_, by simp, ?_, ?_⟩
    · intro f v hmem
      exact applyPatch_mem_some data r.fields f v hkeys hmem
    · intro f hf
      by_cases hmem : ∃ ov, (f, ov) ∈ data
      · obtain ⟨ov, hov⟩ := hmem
        cases ov with
        | some v => exact absurd hov (hf v)
        | none => exact applyPatch_mem_none data r.fields f hkeys hov
      · push_neg at hmem
        exact applyPatch_not_mem data r.fields f (fun ov => hmem ov)
    · intro s hs hne
      exact List.mem_map.mpr ⟨s, hs, by simp [hne]⟩
    · refine List.mem_map.mpr ⟨r, List.mem_of_find?_eq_some hr, ?_⟩
      simp [hrid]

section Witnesses

/-- Shortfall cart: stock 3 on hand, 5 in the cart line. -/
def wShortDB : DB :=
  ⟨[⟨10, "apple", 10, 3, 0⟩], [⟨1, 1, 50, false, 0, 0⟩],
   [⟨1, 10, 1, 5, 1, 50, .inCart, 0, 0⟩], 2, 2⟩

theorem checkout_all_or_nothing_witness :
    (wShortDB.openOrders 1).head? = some ⟨1, 1, 50, false, 0, 0⟩ ∧
    ((wShortDB.orderLines 1).map Purchase.product_id).Nodup ∧
    (∀ l ∈ wShortDB.orderLines 1, ∃ pr,
      wShortDB.findProduct l.product_id = some pr) ∧
    (∃ l ∈ wShortDB.orderLines 1, ∃ pr,
      wShortDB.findProduct l.product_id = some pr ∧ pr.quantity < l.quantity) ∧
    ((∃ e, BuyCRUD.checkout wShortDB 1 9 = .error e ∧ e.status_code = 400) ∧
      runState wShortDB (BuyCRUD.checkout wShortDB 1 9) = wShortDB ∧
      (runState wShortDB (BuyCRUD.checkout wShortDB 1 9)).orders = wShortDB.orders ∧
      (runState wShortDB (BuyCRUD.checkout wShortDB 1 9)).purchases =
        wShortDB.purchases ∧
      (runState wShortDB (BuyCRUD.checkout wShortDB 1 9)).products =
        wShortDB.products) := by
  have hfirst : (wShortDB.openOrders 1).head? = some ⟨1, 1, 50, false, 0, 0⟩ := by
    decide
  have hnodup : ((wShortDB.orderLines 1).map Purchase.product_id).Nodup := by decide
  have hex : ∀ l ∈ wShortDB.orderLines 1, ∃ pr,
      wShortDB.findProduct l.product_id = some pr := by
    intro l hl
    have hlines : wShortDB.orderLines 1 = [⟨1, 10, 1, 5, 1, 50, .inCart, 0, 0⟩] := by
      decide
    rw [hlines, List.mem_singleton] at hl
    subst hl
    exact ⟨⟨10, "apple", 10, 3, 0⟩, by decide⟩
  have hshort : ∃ l ∈ wShortDB.orderLines 1, ∃ pr,
      wShortDB.findProduct l.product_id = some pr ∧ pr.quantity < l.quantity :=
    ⟨⟨1, 10, 1, 5, 1, 50, .inCart, 0, 0⟩, by decide,
      ⟨10, "apple", 10, 3, 0⟩, by decide, by decide⟩
  exact ⟨hfirst, hnodup, hex, hshort,
    checkout_all_or_nothing wShortDB 1 9 ⟨1, 1, 50, false, 0, 0⟩
      hfirst hnodup hex hshort⟩

/-- Covered cart: stock 100 on hand, 5 in the cart line. -/
def wOkDB : DB :=
  ⟨[⟨10, "apple", 10, 100, 0⟩], [⟨1, 1, 50, false, 0, 0⟩],
   [⟨1, 10, 1, 5, 1, 50, .inCart, 0, 0⟩], 2, 2⟩

theorem checkout_success_effects_witness :
    wOkDB.openOrders 1 = [⟨1, 1, 50, false, 0, 0⟩] ∧
    ((wOkDB.orderLines 1).map Purchase.product_id).Nodup ∧
    (∀ l ∈ wOkDB.orderLines 1, ∃ pr,
      wOkDB.findProduct l.product_id = some pr ∧ l.quantity ≤ pr.quantity) ∧
    (∃ db', BuyCRUD.checkout wOkDB 1 9 = .ok (db', 1) ∧
      ({ (⟨1, 1, 50, false, 0, 0⟩ : Order) with
        checked_out := true, updated_at := 9 } : Order) ∈ db'.orders ∧
      (∀ p ∈ db'.purchases, p.order_id = 1 → p.status = OrderStatus.purchased) ∧
      (∀ l ∈ wOkDB.orderLines 1, ∀ pr, wOkDB.findProduct l.product_id = some pr →
          db'.findProduct l.product_id =
            some { pr with quantity := pr.quantity - l.quantity, updated_at := 9 }) ∧
      (∀ pid, (∀ l ∈ wOkDB.orderLines 1, l.product_id ≠ pid) →
          db'.findProduct pid = wOkDB.findProduct pid)) := by
  have hopen : wOkDB.openOrders 1 = [⟨1, 1, 50, false, 0, 0⟩] := by decide
  have hnodup : ((wOkDB.orderLines 1).map Purchase.product_id).Nodup := by decide
  have hstock : ∀ l ∈ wOkDB.orderLines 1, ∃ pr,
      wOkDB.findProduct l.product_id = some pr ∧ l.quantity ≤ pr.quantity := by
    intro l hl
    have hlines : wOkDB.orderLines 1 = [⟨1, 10, 1, 5, 1, 50, .inCart, 0, 0⟩] := by
      decide
    rw [hlines, List.mem_singleton] at hl
    subst hl
    exact ⟨⟨10, "apple", 10, 100, 0⟩, by decide, by decide⟩
  exact ⟨hopen, hnodup, hstock,
    checkout_success_effects wOkDB 1 9 ⟨1, 1, 50, false, 0, 0⟩ hopen hnodup hstock⟩

/-- Two open orders for user 1, the first holding a covered line. -/
def wTwoOpenDB : DB :=
  ⟨[⟨10, "apple", 10, 100, 0⟩],
   [⟨1, 1, 50, false, 0, 0⟩, ⟨2, 1, 0, false, 0, 0⟩],
   [⟨1, 10, 1, 5, 1, 50, .inCart, 0, 0⟩], 3, 2⟩

theorem checkout_multiple_open_orders_witness :
    wTwoOpenDB.openOrders 1 = [⟨1, 1, 50, false, 0, 0⟩, ⟨2, 1, 0, false, 0, 0⟩] ∧
    (wTwoOpenDB.orders.map Order.id).Nodup ∧
    ((wTwoOpenDB.orderLines 1).map Purchase.product_id).Nodup ∧
    (∀ l ∈ wTwoOpenDB.orderLines 1, ∃ pr,
      wTwoOpenDB.findProduct l.product_id = some pr ∧ l.quantity ≤ pr.quantity) ∧
    ((∀ (db₂ : DB) (uid₂ now₂ : Nat) (e : HTTPError),
        BuyCRUD.checkout db₂ uid₂ now₂ = .error e → e.status_code ≠ 409) ∧
      ∃ db', BuyCRUD.checkout wTwoOpenDB 1 9 = .ok (db', 1) ∧
        ({ (⟨1, 1, 50, false, 0, 0⟩ : Order) with
          checked_out := true, updated_at := 9 } : Order) ∈ db'.orders ∧
        (∀ o ∈ wTwoOpenDB.orders, o.id ≠ 1 → o ∈ db'.orders) ∧
        db'.openOrders 1 = [⟨2, 1, 0, false, 0, 0⟩]) := by
  have hopen : wTwoOpenDB.openOrders 1 =
      [⟨1, 1, 50, false, 0, 0⟩, ⟨2, 1, 0, false, 0, 0⟩] := by decide
  have hnodupO : (wTwoOpenDB.orders.map Order.id).Nodup := by decide
  have hnodup : ((wTwoOpenDB.orderLines 1).map Purchase.product_id).Nodup := by
    decide
  have hstock : ∀ l ∈ wTwoOpenDB.orderLines 1, ∃ pr,
      wTwoOpenDB.findProduct l.product_id = some pr ∧ l.quantity ≤ pr.quantity := by
    intro l hl
    have hlines : wTwoOpenDB.orderLines 1 =
        [⟨1, 10, 1, 5, 1, 50, .inCart, 0, 0⟩] := by decide
    rw [hlines, List.mem_singleton] at hl
    subst hl
    exact ⟨⟨10, "apple", 10, 100, 0⟩, by decide, by decide⟩
  exact ⟨hopen, hnodupO, hnodup, hstock,
    checkout_multiple_open_orders wTwoOpenDB 1 9
      ⟨1, 1, 50, false, 0, 0⟩ ⟨2, 1, 0, false, 0, 0⟩ []
      hopen hnodupO hnodup hstock⟩

/-- Empty cart state over a one-product catalog. -/
def wEmptyCartDB : DB := ⟨[⟨10, "apple", 10, 100, 0⟩], [], [], 1, 1⟩

theorem add_to_cart_quantity_assoc_witness :
    (∀ p ∈ wEmptyCartDB.purchases, p.order_id < wEmptyCartDB.nextOrderId) ∧
    wEmptyCartDB.findProduct 10 = some ⟨10, "apple", 10, 100, 0⟩ ∧
    ((0 : Int) < 2) ∧ ((0 : Int) < 3) ∧
    (∃ db1 db2 db3 oid oid3,
      BuyCRUD.create_purchase wEmptyCartDB ⟨10, 1, 2⟩ 4 = .ok (db1, oid) ∧
      BuyCRUD.create_purchase db1 ⟨10, 1, 3⟩ 5 = .ok (db2, oid) ∧
      BuyCRUD.create_purchase wEmptyCartDB ⟨10, 1, 2 + 3⟩ 6 = .ok (db3, oid3) ∧
      ∃ p2 p3, lineFor db2 1 10 = some p2 ∧ lineFor db3 1 10 = some p3 ∧
        p2.quantity = 2 + 3 ∧ p3.quantity = 2 + 3 ∧
        p2.total_amount = round2 ((⟨10, "apple", 10, 100, 0⟩ : Product).price *
          ((2 + 3 : Int) : ℚ)) ∧
        p3.total_amount = round2 ((⟨10, "apple", 10, 100, 0⟩ : Product).price *
          ((2 + 3 : Int) : ℚ))) := by
  have hfk : ∀ p ∈ wEmptyCartDB.purchases, p.order_id < wEmptyCartDB.nextOrderId := by
    decide
  have hp : wEmptyCartDB.findProduct 10 = some ⟨10, "apple", 10, 100, 0⟩ := by decide
  exact ⟨hfk, hp, by decide, by decide,
    add_to_cart_quantity_assoc wEmptyCartDB 1 10 2 3 4 5 6 ⟨10, "apple", 10, 100, 0⟩
      hfk hp (by decide) (by decide) (Or.inl (by decide))⟩

theorem add_to_cart_nonpositive_quantity_witness :
    wEmptyCartDB.findProduct 10 = some ⟨10, "apple", 10, 100, 0⟩ ∧
    ((0 : Int) ≤ 0) ∧
    wEmptyCartDB.openOrders 1 = [] ∧
    (∀ p ∈ wEmptyCartDB.purchases, p.order_id < wEmptyCartDB.nextOrderId) ∧
    ((∃ db1, BuyCRUD.create_purchase wEmptyCartDB ⟨10, 1, 0⟩ 4 =
        .ok (db1, wEmptyCartDB.nextOrderId) ∧
      lineFor db1 1 10 =
        some ⟨wEmptyCartDB.nextPurchaseId, 10, 1, 0, wEmptyCartDB.nextOrderId,
          round2 ((⟨10, "apple", 10, 100, 0⟩ : Product).price * ((0 : Int) : ℚ)),
          .inCart, 4, 4⟩ ∧
      db1.openOrders 1 =
        [⟨wEmptyCartDB.nextOrderId, 1,
          round2 ((⟨10, "apple", 10, 100, 0⟩ : Product).price * ((0 : Int) : ℚ)),
          false, 4, 4⟩]) ∧
    (∀ (db₂ : DB) (now₂ : Nat),
      BuyCRUD.update_purchase_quantity db₂ ⟨10, 1, 0⟩ now₂ =
        .error ⟨400, "Quantity change cannot be 0"⟩)) := by
  have hp : wEmptyCartDB.findProduct 10 = some ⟨10, "apple", 10, 100, 0⟩ := by decide
  have hopen : wEmptyCartDB.openOrders 1 = [] := by decide
  have hfk : ∀ p ∈ wEmptyCartDB.purchases, p.order_id < wEmptyCartDB.nextOrderId := by
    decide
  exact ⟨hp, by decide, hopen, hfk,
    add_to_cart_nonpositive_quantity wEmptyCartDB 1 10 0 4 ⟨10, "apple", 10, 100, 0⟩
      hp (by decide) hopen hfk⟩

/-- A one-row user table holding a Deactivated Alice with a phone number. -/
def wReactUDB : UserDB :=
  ⟨[⟨1, "Smith", "Alice", "1990-01-01", "alice@example.com", some "+12345",
    .deactivated, "1 Main St", none, "Springfield", "IL", "62704", "USA"⟩], 2⟩

theorem create_user_reactivation_witness :
    wReactUDB.users.find? (fun u => u.email == aliceRecreate.email) =
      some ⟨1, "Smith", "Alice", "1990-01-01", "alice@example.com", some "+12345",
        .deactivated, "1 Main St", none, "Springfield", "IL", "62704", "USA"⟩ ∧
    (wReactUDB.users.map User.id).Nodup ∧
    (∃ udb' u', UserCRUD.create_user wReactUDB aliceRecreate = .ok (udb', u') ∧
      udb'.users.length = wReactUDB.users.length ∧
      u'.id = 1 ∧
      u'.email = "alice@example.com" ∧
      u'.condition = ConditionEnum.active ∧
      u'.last_name = aliceRecreate.last_name ∧
      u'.first_name = aliceRecreate.first_name ∧
      u'.birth_date = aliceRecreate.birth_date ∧
      u'.street1 = aliceRecreate.street1 ∧
      u'.city = aliceRecreate.city ∧
      u'.state_province = aliceRecreate.state_province ∧
      u'.zip = aliceRecreate.zip ∧
      u'.country = aliceRecreate.country ∧
      u'.phone_number = (match aliceRecreate.phone_number with
        | some v => some v
        | none => some "+12345") ∧
      u'.street2 = (match aliceRecreate.street2 with
        | some v => some v
        | none => (none : Option String)) ∧
      (∀ v ∈ wReactUDB.users, v.id ≠ 1 → v ∈ udb'.users)) := by
  have hfind : wReactUDB.users.find? (fun u => u.email == aliceRecreate.email) =
      some ⟨1, "Smith", "Alice", "1990-01-01", "alice@example.com", some "+12345",
        .deactivated, "1 Main St", none, "Springfield", "IL", "62704", "USA"⟩ := by
    decide
  have hnodup : (wReactUDB.users.map User.id).Nodup := by decide
  exact ⟨hfind, hnodup,
    create_user_reactivation wReactUDB aliceRecreate
      ⟨1, "Smith", "Alice", "1990-01-01", "alice@example.com", some "+12345",
        .deactivated, "1 Main St", none, "Springfield", "IL", "62704", "USA"⟩
      hfind (by decide) hnodup⟩

theorem create_user_duplicate_unprocessable_witness :
    dupUDB.users.find? (fun u => u.email == bobAgain.email) =
      some ⟨1, "B", "Bob", "1980-01-01", "bob@example.com", none, .active, "s",
        none, "c", "st", "z", "co"⟩ ∧
    ((⟨1, "B", "Bob", "1980-01-01", "bob@example.com", none, .active, "s", none,
      "c", "st", "z", "co"⟩ : User).condition ≠ ConditionEnum.deactivated) ∧
    (UserCRUD.create_user dupUDB bobAgain =
      .error ⟨422,
        "User with email " ++ bobAgain.email ++ " already exists and is active."⟩ ∧
    runUserState dupUDB (UserCRUD.create_user dupUDB bobAgain) = dupUDB) := by
  have hfind : dupUDB.users.find? (fun u => u.email == bobAgain.email) =
      some ⟨1, "B", "Bob", "1980-01-01", "bob@example.com", none, .active, "s",
        none, "c", "st", "z", "co"⟩ := by decide
  have hcond : (⟨1, "B", "Bob", "1980-01-01", "bob@example.com", none, .active,
      "s", none, "c", "st", "z", "co"⟩ : User).condition ≠
      ConditionEnum.deactivated := by decide
  exact ⟨hfind, hcond,
    create_user_duplicate_unprocessable dupUDB bobAgain
      ⟨1, "B", "Bob", "1980-01-01", "bob@example.com", none, .active, "s", none,
        "c", "st", "z", "co"⟩ hfind hcond⟩

/-- A two-record table over boolean field names and integer values. -/
def wGenTable : List (GenRecord Bool Int) :=
  [⟨1, fun _ => 0⟩, ⟨2, fun _ => 5⟩]

/-- A dict setting field `true` to 7 and passing field `false` as null. -/
def wGenData : List (Bool × Option Int) := [(true, some 7), (false, none)]

theorem base_update_partial_fields_witness :
    ((wGenData.map Prod.fst).Nodup) ∧
    ((wGenTable.map GenRecord.id).Nodup) ∧
    ((wGenTable.find? (fun r => r.id == 1) = none →
      BaseCRUD.update wGenTable 1 wGenData = .error ⟨404, "Record not found"⟩ ∧
      runGenState wGenTable (BaseCRUD.update wGenTable 1 wGenData) = wGenTable) ∧
    (∀ r, wGenTable.find? (fun r => r.id == 1) = some r →
      ∃ table' fields', BaseCRUD.update wGenTable 1 wGenData = .ok (table', fields') ∧
        (∀ f v, (f, some v) ∈ wGenData → fields' f = v) ∧
        (∀ f, (∀ v, (f, some v) ∉ wGenData) → fields' f = r.fields f) ∧
        table'.length = wGenTable.length ∧
        (∀ s ∈ wGenTable, s.id ≠ 1 → s ∈ table') ∧
        (⟨r.id, fields'⟩ : GenRecord Bool Int) ∈ table')) := by
  have hkeys : (wGenData.map Prod.fst).Nodup := by decide
  have hids : (wGenTable.map GenRecord.id).Nodup := by decide
  exact ⟨hkeys, hids, base_update_partial_fields wGenTable 1 wGenData hkeys hids⟩

end Witnesses

/-- A cart holding one line of quantity 2 at price 10 — the removal scenario. -/
def removalDB : DB :=
  ⟨[⟨10, "apple", 10, 100, 0⟩],
   [⟨1, 1, 20, false, 0, 0⟩],
   [⟨1, 10, 1, 2, 1, 20, .inCart, 0, 0⟩], 2, 2⟩

theorem update_quantity_nonpositive_removes_witness :
    ((-5 : Int) ≠ 0) ∧
    removalDB.openOrders 1 = [⟨1, 1, 20, false, 0, 0⟩] ∧
    (removalDB.orderLines 1).find? (fun p => p.product_id == 10) =
      some ⟨1, 10, 1, 2, 1, 20, .inCart, 0, 0⟩ ∧
    ((2 : Int) + (-5) ≤ 0) ∧
    (∃ db', BuyCRUD.update_purchase_quantity removalDB ⟨10, 1, -5⟩ 7 = .ok (db', 1) ∧
      db'.purchases = removalDB.purchases.filter (fun p => p.id != 1) ∧
      (∀ p ∈ db'.orderLines 1, p.product_id ≠ 10) ∧
      db'.findOrder 1 = some ⟨1, 1, (20 : ℚ) - 20, false, 0, 0⟩) :=
  ⟨by decide, by decide, by decide, by decide,
    update_quantity_nonpositive_removes removalDB 1 10 (-5) 7
      ⟨1, 1, 20, false, 0, 0⟩ ⟨1, 10, 1, 2, 1, 20, .inCart, 0, 0⟩
      (by decide) (by decide) (by decide) (by decide) (by decide) (by decide)⟩

end Shop
